import Mathlib

/-!
# The LED blink task `task_MyTask` (SMPS_5G2_RTOS)

A shallow embedding of `src/apl/tasks/task_MyTask.c` and `h/apl/tasks/task_MyTask.h`.

* The module-level variables `my_task`, `tick_scaler`, `tick_scale_max`, the function-static
  `pre_op_mode` of `task_MyTask_Execute` and the debug LED pin are gathered in `Globals`,
  which every function receives and returns.
* The scheduler object `task_mgr` is read only; the two fields the task reads are passed in
  as `TASK_MGR_t`.
* `uint16_t` values are natural numbers, reduced modulo `2^16` wherever the C code can wrap.
* The integer division by `task_mgr.task_queue_ubound` is undefined for a zero divisor, so
  the functions that reach it return an `Option`, `none` standing for the division by zero.
* Constants and hardware accessors that live in headers outside the translated files
  (`TASK_MGR_TIME_STEP`, `OP_MODE_FAULT`, `LED_ON`, `LED_OFF`, `DBGLED_RD`) are the fields of
  `Config`.
* The tick constants `DEFAULT_TICKS` and `FAULT_TICKS` are floating-point constant
  expressions, `(uint16_t)(period/TASK_MGR_TIME_STEP) - 1`. The value the compiler folds the
  converted quotient to depends on its floating-point format (`300e-3/100e-6` is
  `3000 - 2^-41` in IEEE binary64 and converts to 2999, while the exact quotient is 3000), so
  the two converted quotients are fields of `Config` as well; the 16-bit subtraction of one
  is modelled.
-/

namespace MyTask

/-! ## Data model -/

/-- The debug LED pin as the GPIO primitives see it: a direction bit and an output latch. -/
structure DBGLED_t where
  /-- Direction of the pin: `true` when configured as an output. -/
  is_output : Bool
  /-- Level held in the output latch (what `DBGLED_WR` writes). -/
  latch : Bool
  deriving DecidableEq, Repr

/-- Constants and accessors declared outside `task_MyTask.c` / `task_MyTask.h`. -/
structure Config where
  /-- Scheduler base tick period in seconds (`TASK_MGR_TIME_STEP`), as a decimal value. -/
  TASK_MGR_TIME_STEP : ℚ
  /-- The 16-bit value of `(uint16_t)(DEFAULT_INNTERVAL/TASK_MGR_TIME_STEP)` in line 16, as
  the compiler folds the floating-point quotient and converts it. -/
  DEFAULT_COUNT : Nat
  /-- The 16-bit value of `(uint16_t)(FAULT_INNTERVAL/TASK_MGR_TIME_STEP)` in line 17, as
  the compiler folds the floating-point quotient and converts it. -/
  FAULT_COUNT : Nat
  /-- Value of the operating mode that denotes the fault mode (`OP_MODE_FAULT`). -/
  OP_MODE_FAULT : Nat
  /-- Latch level that lights the LED (`LED_ON`). -/
  LED_ON : Bool
  /-- Latch level that switches the LED off (`LED_OFF`). -/
  LED_OFF : Bool
  /-- Level read back from the pin (`DBGLED_RD`), a function of the pin state. -/
  DBGLED_RD : DBGLED_t → Bool

/-- `MYTASK_INITIALIZE`, first enumerator of `MY_TASK_STATE_e`. -/
def MYTASK_INITIALIZE : Int := 0

/-- `MYTASK_IDLE`, second enumerator of `MY_TASK_STATE_e`. -/
def MYTASK_IDLE : Int := 1

/-- `MYTASK_RUN`, third enumerator of `MY_TASK_STATE_e`. -/
def MYTASK_RUN : Int := 2

/-- `MY_TASK_OBJECT_t`: the control object. `state` holds the integer value of the
`MY_TASK_STATE_e` enumeration, so that out-of-range values can be represented. -/
structure MY_TASK_OBJECT_t where
  enable : Bool
  led_state : Bool
  ready : Bool
  interval : Nat
  state : Int
  deriving DecidableEq, Repr

/-- The two fields of the scheduler object `task_mgr` that the task reads:
`task_mgr.op_mode.value` and `task_mgr.task_queue_ubound`. -/
structure TASK_MGR_t where
  op_mode : Nat
  task_queue_ubound : Nat
  deriving DecidableEq, Repr

/-- All variables the task owns, and the LED pin. -/
structure Globals where
  /-- The control object `my_task`. -/
  my_task : MY_TASK_OBJECT_t
  /-- Gate counter `tick_scaler`. -/
  tick_scaler : Nat
  /-- Gate threshold `tick_scale_max`. -/
  tick_scale_max : Nat
  /-- The function-static `pre_op_mode.value` of `task_MyTask_Execute`. -/
  pre_op_mode : Nat
  /-- The debug LED pin. -/
  led : DBGLED_t
  deriving DecidableEq, Repr

/-! ## GPIO primitives

The `DBGLED_*` accessors are defined in a board header outside the translated files. -/

/-- Modelled from the spec: `DBGLED_INIT_OUTPUT`, the configure-pin-as-output primitive;
it sets the direction and leaves the latch alone. -/
def DBGLED_INIT_OUTPUT (p : DBGLED_t) : DBGLED_t := { p with is_output := true }

/-- Modelled from the spec: `DBGLED_INIT_INPUT`, the configure-pin-as-input primitive;
it sets the direction and leaves the latch alone. -/
def DBGLED_INIT_INPUT (p : DBGLED_t) : DBGLED_t := { p with is_output := false }

/-- Modelled from the spec: the assignment `DBGLED_WR = v`, the write-level primitive. -/
def DBGLED_WR (p : DBGLED_t) (v : Bool) : DBGLED_t := { p with latch := v }

/-- Modelled from the spec: `DBGLED_TOGGLE`, the toggle-level primitive. -/
def DBGLED_TOGGLE (p : DBGLED_t) : DBGLED_t := { p with latch := !p.latch }

/-! ## Tick constants -/

/-- `DEFAULT_INNTERVAL`: normal blink period in seconds, the decimal value of `300e-3`. -/
def DEFAULT_INNTERVAL : ℚ := 300e-3

/-- `FAULT_INNTERVAL`: fault blink period in seconds, the decimal value of `50e-3`. -/
def FAULT_INNTERVAL : ℚ := 50e-3

/-- `DEFAULT_TICKS`, that is `((uint16_t)(DEFAULT_INNTERVAL/TASK_MGR_TIME_STEP) - 1)`:
the converted quotient less one, the subtraction wrapping in 16 bits. -/
def DEFAULT_TICKS (cfg : Config) : Nat :=
  (cfg.DEFAULT_COUNT + 65535) % 65536

/-- `FAULT_TICKS`, that is `((uint16_t)(FAULT_INNTERVAL/TASK_MGR_TIME_STEP) - 1)`:
the converted quotient less one, the subtraction wrapping in 16 bits. -/
def FAULT_TICKS (cfg : Config) : Nat :=
  (cfg.FAULT_COUNT + 65535) % 65536

/-! ## The task functions -/

/-- `task_MyTask_UpdateTimebase`: selects the interval by operating mode and divides it by
the queue length. Returns the result code and the new globals, `none` on division by zero. -/
def task_MyTask_UpdateTimebase (cfg : Config) (task_mgr : TASK_MGR_t) (g : Globals) :
    Option (Nat × Globals) :=
  let g1 : Globals :=
    if task_mgr.op_mode = cfg.OP_MODE_FAULT then
      { g with my_task := { g.my_task with interval := FAULT_TICKS cfg } }
    else
      { g with my_task := { g.my_task with interval := DEFAULT_TICKS cfg } }
  if task_mgr.task_queue_ubound = 0 then
    none
  else
    some (1, { g1 with
      tick_scale_max := (g1.my_task.interval / task_mgr.task_queue_ubound) % 65536 })

/-- `task_MyTask_Initialize`. -/
def task_MyTask_Initialize (cfg : Config) (task_mgr : TASK_MGR_t) (g : Globals) :
    Option (Nat × Globals) :=
  let fres : Nat := 1
  match task_MyTask_UpdateTimebase cfg task_mgr g with
  | none => none
  | some (r, g1) =>
    let fres := fres &&& r
    let led1 := DBGLED_INIT_OUTPUT g1.led
    let led2 := DBGLED_WR led1 cfg.LED_OFF
    some (fres, { g1 with
      led := led2
      my_task :=
        { interval := DEFAULT_TICKS cfg
          enable := false
          led_state := cfg.DBGLED_RD led2
          state := MYTASK_IDLE
          ready := true } })

/-- `task_MyTask_Start`. -/
def task_MyTask_Start (cfg : Config) (g : Globals) : Nat × Globals :=
  let fres : Nat := 1
  (fres, { g with
    led := DBGLED_WR g.led cfg.LED_ON
    my_task := { g.my_task with enable := true } })

/-- `task_MyTask_Stop`. -/
def task_MyTask_Stop (g : Globals) : Nat × Globals :=
  let fres : Nat := 1
  (fres, { g with
    led := DBGLED_INIT_INPUT g.led
    my_task := { g.my_task with enable := false, ready := false, state := MYTASK_INITIALIZE } })

/-- The statement `my_task.led_state = DBGLED_RD;` that ends `task_MyTask_Execute`. -/
def captureLed (cfg : Config) (g : Globals) : Globals :=
  { g with my_task := { g.my_task with led_state := cfg.DBGLED_RD g.led } }

/-- The `switch (my_task.state)` of `task_MyTask_Execute` followed by the capture of the LED
status; `fres` is the result code accumulated so far. -/
def stateMachine (cfg : Config) (task_mgr : TASK_MGR_t) (fres : Nat) (g : Globals) :
    Option (Nat × Globals) :=
  let switched : Option (Nat × Globals) :=
    if g.my_task.state = MYTASK_INITIALIZE then
      match task_MyTask_Initialize cfg task_mgr g with
      | none => none
      | some (r, g1) =>
        if g1.my_task.ready then
          some (fres &&& r, { g1 with my_task := { g1.my_task with state := MYTASK_IDLE } })
        else
          some (fres &&& r, g1)
    else if g.my_task.state = MYTASK_IDLE then
      let g1 : Globals := { g with led := DBGLED_WR g.led cfg.LED_ON }
      if g1.my_task.enable then
        some (fres, { g1 with my_task := { g1.my_task with state := MYTASK_RUN } })
      else
        some (fres, g1)
    else if g.my_task.state = MYTASK_RUN then
      some (fres, { g with led := DBGLED_TOGGLE g.led })
    else
      some (fres, (task_MyTask_Stop g).2)
  match switched with
  | none => none
  | some (fres, g2) => some (fres, captureLed cfg g2)

/-- `task_MyTask_Execute`: mode check, call-counting gate, then the state machine. -/
def task_MyTask_Execute (cfg : Config) (task_mgr : TASK_MGR_t) (g : Globals) :
    Option (Nat × Globals) :=
  let fres : Nat := 1
  let checked : Option (Nat × Globals) :=
    if g.pre_op_mode ≠ task_mgr.op_mode then
      match task_MyTask_UpdateTimebase cfg task_mgr g with
      | none => none
      | some (r, g1) => some (fres &&& r, { g1 with pre_op_mode := task_mgr.op_mode })
    else
      some (fres, g)
  match checked with
  | none => none
  | some (fres, g1) =>
    if g1.tick_scaler < g1.tick_scale_max then
      some (fres, { g1 with tick_scaler := (g1.tick_scaler + 1) % 65536 })
    else
      stateMachine cfg task_mgr fres { g1 with tick_scaler := 0 }

/-! ## Vocabulary of the specification -/

/-- The tick count `task_MyTask_UpdateTimebase` selects for the operating mode:
`FAULT_TICKS` in the fault mode, `DEFAULT_TICKS` in every other mode. -/
def selectedTicks (cfg : Config) (task_mgr : TASK_MGR_t) : Nat :=
  if task_mgr.op_mode = cfg.OP_MODE_FAULT then FAULT_TICKS cfg else DEFAULT_TICKS cfg

/-- The converted quotient behind the tick count of the operating mode: `FAULT_COUNT` in
the fault mode, `DEFAULT_COUNT` in every other mode. -/
def selectedCount (cfg : Config) (task_mgr : TASK_MGR_t) : Nat :=
  if task_mgr.op_mode = cfg.OP_MODE_FAULT then cfg.FAULT_COUNT else cfg.DEFAULT_COUNT

/-- The period `task_MyTask_UpdateTimebase` works from in the operating mode:
`FAULT_INNTERVAL` in the fault mode, `DEFAULT_INNTERVAL` in every other mode. -/
def selectedPeriod (cfg : Config) (task_mgr : TASK_MGR_t) : ℚ :=
  if task_mgr.op_mode = cfg.OP_MODE_FAULT then FAULT_INNTERVAL else DEFAULT_INNTERVAL

/-- The globals after the mode check that opens `task_MyTask_Execute` (for a non-zero queue
length): the timebase is recomputed and the mode recorded when the mode has changed. -/
def afterModeCheck (cfg : Config) (task_mgr : TASK_MGR_t) (g : Globals) : Globals :=
  if g.pre_op_mode ≠ task_mgr.op_mode then
    { g with
      my_task := { g.my_task with interval := selectedTicks cfg task_mgr }
      tick_scale_max := (selectedTicks cfg task_mgr / task_mgr.task_queue_ubound) % 65536
      pre_op_mode := task_mgr.op_mode }
  else g

/-- The gate passes: after the mode check the gate counter is not below the gate threshold. -/
def gatePasses (cfg : Config) (task_mgr : TASK_MGR_t) (g : Globals) : Prop :=
  ¬ (afterModeCheck cfg task_mgr g).tick_scaler < (afterModeCheck cfg task_mgr g).tick_scale_max

instance (cfg : Config) (task_mgr : TASK_MGR_t) (g : Globals) :
    Decidable (gatePasses cfg task_mgr g) :=
  inferInstanceAs (Decidable (¬ (afterModeCheck cfg task_mgr g).tick_scaler <
    (afterModeCheck cfg task_mgr g).tick_scale_max))

/-- The globals on entry to the state machine of a gate-passing call: mode check done and
gate counter reset to zero. -/
def gated (cfg : Config) (task_mgr : TASK_MGR_t) (g : Globals) : Globals :=
  { afterModeCheck cfg task_mgr g with tick_scaler := 0 }

/-- The state value is none of the three enumerators (the implicit fault condition). -/
def isFaultState (st : Int) : Prop :=
  st ≠ MYTASK_INITIALIZE ∧ st ≠ MYTASK_IDLE ∧ st ≠ MYTASK_RUN

instance (st : Int) : Decidable (isFaultState st) :=
  inferInstanceAs (Decidable (st ≠ MYTASK_INITIALIZE ∧ st ≠ MYTASK_IDLE ∧ st ≠ MYTASK_RUN))

/-- The variables at power-on: zero-initialised control object, counter and recorded mode,
`tick_scale_max` initialised to `DEFAULT_TICKS`; the pin is whatever the hardware left. -/
def powerOn (cfg : Config) (led : DBGLED_t) : Globals :=
  { my_task := { enable := false, led_state := false, ready := false, interval := 0,
                 state := MYTASK_INITIALIZE }
    tick_scaler := 0
    tick_scale_max := DEFAULT_TICKS cfg
    pre_op_mode := 0
    led := led }

/-- States reachable from power-on by calls of the four public functions, with any
scheduler data at each call. -/
inductive Reachable (cfg : Config) : Globals → Prop
  | power_on (led : DBGLED_t) : Reachable cfg (powerOn cfg led)
  | init (task_mgr : TASK_MGR_t) (g : Globals) (r : Nat) (g' : Globals) :
      Reachable cfg g → task_MyTask_Initialize cfg task_mgr g = some (r, g') → Reachable cfg g'
  | start (g : Globals) : Reachable cfg g → Reachable cfg (task_MyTask_Start cfg g).2
  | execute (task_mgr : TASK_MGR_t) (g : Globals) (r : Nat) (g' : Globals) :
      Reachable cfg g → task_MyTask_Execute cfg task_mgr g = some (r, g') → Reachable cfg g'
  | stop (g : Globals) : Reachable cfg g → Reachable cfg (task_MyTask_Stop g).2

/-- Invariant of the control object: `state == RUN` implies `enable`. -/
def runImpliesEnable (g : Globals) : Prop :=
  g.my_task.state = MYTASK_RUN → g.my_task.enable = true

/-- Invariant of the control object: `ready` implies `state` is `IDLE` or `RUN`. -/
def readyImpliesActive (g : Globals) : Prop :=
  g.my_task.ready = true → g.my_task.state = MYTASK_IDLE ∨ g.my_task.state = MYTASK_RUN

/-- The ways a returning call of the state machine changes `state`, `enable`, `ready`. -/
def FlagStep (g g' : Globals) : Prop :=
  (g'.my_task.state = g.my_task.state ∧ g'.my_task.enable = g.my_task.enable ∧
    g'.my_task.ready = g.my_task.ready) ∨
  (g.my_task.state = MYTASK_INITIALIZE ∧ g'.my_task.state = MYTASK_IDLE ∧
    g'.my_task.enable = false ∧ g'.my_task.ready = true) ∨
  (g.my_task.state = MYTASK_IDLE ∧ g.my_task.enable = true ∧
    g'.my_task.state = MYTASK_RUN ∧ g'.my_task.enable = true ∧
    g'.my_task.ready = g.my_task.ready) ∨
  (isFaultState g.my_task.state ∧ g'.my_task.state = MYTASK_INITIALIZE ∧
    g'.my_task.enable = false ∧ g'.my_task.ready = false)

/-- The threshold the specification states for period `P`, base tick `T` and queue
length `Q`: `floor(P / (T * Q)) - 1`. -/
def specThreshold (P T : ℚ) (Q : Nat) : Int := ⌊P / (T * Q)⌋ - 1

/-! ## Call sequences -/

/-- Successive calls of `task_MyTask_Execute`, one for each element of the list of scheduler
data; `none` when one of the calls divides by zero. -/
def executeAll (cfg : Config) : List TASK_MGR_t → Globals → Option Globals
  | [], g => some g
  | task_mgr :: rest, g =>
    match task_MyTask_Execute cfg task_mgr g with
    | none => none
    | some (_, g') => executeAll cfg rest g'

/-- Calls of `task_MyTask_Execute` with fixed scheduler data up to and including the first
gate-passing call; `fuel` bounds the number of calls. -/
def executeToGate (cfg : Config) (task_mgr : TASK_MGR_t) : Nat → Globals → Option Globals
  | 0, _ => none
  | fuel + 1, g =>
    match task_MyTask_Execute cfg task_mgr g with
    | none => none
    | some (_, g') =>
      if gatePasses cfg task_mgr g then some g' else executeToGate cfg task_mgr fuel g'

/-- The number of calls, among `n` successive calls of `task_MyTask_Execute` with fixed
scheduler data, that change the level of the pin latch, and the globals after the calls. -/
def countToggles (cfg : Config) (task_mgr : TASK_MGR_t) : Nat → Globals → Option (Nat × Globals)
  | 0, g => some (0, g)
  | n + 1, g =>
    match task_MyTask_Execute cfg task_mgr g with
    | none => none
    | some (_, g') =>
      match countToggles cfg task_mgr n g' with
      | none => none
      | some (k, g'') => some ((if g'.led.latch = g.led.latch then 0 else 1) + k, g'')

/-- What holds after a Start issued at power-on and any number of Execute calls: either the
task still waits in INITIALIZE, not ready and with `enable` set, or Initialize has run and the
task is in IDLE, ready and with `enable` cleared. -/
def EarlyStart (g : Globals) : Prop :=
  (g.my_task.state = MYTASK_INITIALIZE ∧ g.my_task.ready = false ∧ g.my_task.enable = true) ∨
  (g.my_task.state = MYTASK_IDLE ∧ g.my_task.ready = true ∧ g.my_task.enable = false)

/-! ## Sample data -/

/-- A configuration with the 100 us base tick of the source comment, for a compiler that
folds the two quotients to their exact values 3000 and 500. -/
def cfgEx : Config :=
  { TASK_MGR_TIME_STEP := 100e-6
    DEFAULT_COUNT := 3000
    FAULT_COUNT := 500
    OP_MODE_FAULT := 3
    LED_ON := true
    LED_OFF := false
    DBGLED_RD := fun p => p.latch }

/-- The quotient `300e-3/100e-6` as IEEE binary64 arithmetic folds it: `3000 - 2^-41`. -/
def quotientBinary64 : ℚ := 3000 - 1 / 2 ^ 41

/-- A configuration with the 100 us base tick for a compiler that folds the quotients in
IEEE binary64: `300e-3/100e-6` becomes `3000 - 2^-41` and converts to 2999, `50e-3/100e-6`
becomes 500. -/
def cfgBinary64 : Config :=
  { TASK_MGR_TIME_STEP := 100e-6
    DEFAULT_COUNT := 2999
    FAULT_COUNT := 500
    OP_MODE_FAULT := 3
    LED_ON := true
    LED_OFF := false
    DBGLED_RD := fun p => p.latch }

/-- Scheduler data: a non-fault mode and a queue of ten tasks. -/
def mgrEx : TASK_MGR_t := { op_mode := 0, task_queue_ubound := 10 }

/-- Scheduler data: a non-fault mode and a queue of seven tasks. -/
def mgrSeven : TASK_MGR_t := { op_mode := 0, task_queue_ubound := 7 }

/-- Scheduler data: a non-fault mode and a queue long enough for a zero threshold. -/
def mgrLong : TASK_MGR_t := { op_mode := 0, task_queue_ubound := 3000 }

/-- A pin left as an input with a cleared latch. -/
def ledEx : DBGLED_t := { is_output := false, latch := false }

/-- Globals with a corrupted `state`, counter below the threshold. -/
def gCorrupt : Globals :=
  { my_task := { enable := true, led_state := false, ready := true, interval := 2999,
                 state := 7 }
    tick_scaler := 0
    tick_scale_max := 299
    pre_op_mode := 0
    led := { is_output := true, latch := false } }

/-- Globals with a corrupted `state`, counter at the threshold. -/
def gCorruptDue : Globals := { gCorrupt with tick_scaler := 299 }

/-- Globals of an enabled task waiting in IDLE, counter at the threshold. -/
def gIdleDue : Globals :=
  { my_task := { enable := true, led_state := true, ready := true, interval := 2999,
                 state := MYTASK_IDLE }
    tick_scaler := 299
    tick_scale_max := 299
    pre_op_mode := 0
    led := { is_output := true, latch := true } }

/-- Globals after `task_MyTask_Initialize` from power-on with the long queue. -/
def gInitLong : Globals :=
  { my_task := { enable := false, led_state := false, ready := true, interval := 2999,
                 state := MYTASK_IDLE }
    tick_scaler := 0
    tick_scale_max := 0
    pre_op_mode := 0
    led := { is_output := true, latch := false } }

/-- Globals after Initialize, Start and one Execute with the long queue: the task runs. -/
def gRunLong : Globals :=
  { my_task := { enable := true, led_state := true, ready := true, interval := 2999,
                 state := MYTASK_RUN }
    tick_scaler := 0
    tick_scale_max := 0
    pre_op_mode := 0
    led := { is_output := true, latch := true } }

/-- Scheduler data: the fault mode and a queue of ten tasks. -/
def mgrFault : TASK_MGR_t := { op_mode := 3, task_queue_ubound := 10 }

/-- Scheduler data: a non-fault mode and a queue of a thousand tasks (threshold two). -/
def mgrThousand : TASK_MGR_t := { op_mode := 0, task_queue_ubound := 1000 }

/-- Scheduler data: a non-fault mode and an empty queue. -/
def mgrZero : TASK_MGR_t := { op_mode := 0, task_queue_ubound := 0 }

/-- Globals of a running task with threshold two and the counter at zero. -/
def gRunSmall : Globals :=
  { my_task := { enable := true, led_state := true, ready := true, interval := 2999,
                 state := MYTASK_RUN }
    tick_scaler := 0
    tick_scale_max := 2
    pre_op_mode := 0
    led := { is_output := true, latch := true } }

theorem updateTimebase_eq (cfg : Config) (task_mgr : TASK_MGR_t) (g : Globals)
    (hq : 0 < task_mgr.task_queue_ubound) :
    task_MyTask_UpdateTimebase cfg task_mgr g =
      some (1, { g with
        my_task := { g.my_task with interval := selectedTicks cfg task_mgr }
        tick_scale_max := (selectedTicks cfg task_mgr / task_mgr.task_queue_ubound) % 65536 }) := by
  have hne : task_mgr.task_queue_ubound ≠ 0 := Nat.pos_iff_ne_zero.mp hq
  unfold task_MyTask_UpdateTimebase selectedTicks
  by_cases hm : task_mgr.op_mode = cfg.OP_MODE_FAULT <;> simp [hm, hne]

theorem initialize_eq (cfg : Config) (task_mgr : TASK_MGR_t) (g : Globals)
    (hq : 0 < task_mgr.task_queue_ubound) :
    task_MyTask_Initialize cfg task_mgr g =
      some (1, { g with
        my_task :=
          { interval := DEFAULT_TICKS cfg
            enable := false
            led_state := cfg.DBGLED_RD (DBGLED_WR (DBGLED_INIT_OUTPUT g.led) cfg.LED_OFF)
            state := MYTASK_IDLE
            ready := true }
        tick_scale_max := (selectedTicks cfg task_mgr / task_mgr.task_queue_ubound) % 65536
        led := DBGLED_WR (DBGLED_INIT_OUTPUT g.led) cfg.LED_OFF }) := by
  unfold task_MyTask_Initialize
  rw [updateTimebase_eq cfg task_mgr g hq]
  rfl

theorem execute_eq (cfg : Config) (task_mgr : TASK_MGR_t) (g : Globals)
    (hq : 0 < task_mgr.task_queue_ubound) :
    task_MyTask_Execute cfg task_mgr g =
      if (afterModeCheck cfg task_mgr g).tick_scaler < (afterModeCheck cfg task_mgr g).tick_scale_max then
        some (1, { afterModeCheck cfg task_mgr g with
          tick_scaler := ((afterModeCheck cfg task_mgr g).tick_scaler + 1) % 65536 })
      else
        stateMachine cfg task_mgr 1 (gated cfg task_mgr g) := by
  unfold task_MyTask_Execute afterModeCheck gated afterModeCheck
  by_cases hm : g.pre_op_mode = task_mgr.op_mode
  · simp [hm]
  · simp [hm, updateTimebase_eq cfg task_mgr g hq]


theorem gated_state (cfg : Config) (task_mgr : TASK_MGR_t) (g : Globals) :
    (gated cfg task_mgr g).my_task.state = g.my_task.state := by
  unfold gated afterModeCheck; split <;> rfl

theorem gated_enable (cfg : Config) (task_mgr : TASK_MGR_t) (g : Globals) :
    (gated cfg task_mgr g).my_task.enable = g.my_task.enable := by
  unfold gated afterModeCheck; split <;> rfl

theorem gated_ready (cfg : Config) (task_mgr : TASK_MGR_t) (g : Globals) :
    (gated cfg task_mgr g).my_task.ready = g.my_task.ready := by
  unfold gated afterModeCheck; split <;> rfl

theorem gated_led (cfg : Config) (task_mgr : TASK_MGR_t) (g : Globals) :
    (gated cfg task_mgr g).led = g.led := by
  unfold gated afterModeCheck; split <;> rfl

theorem execute_gate_pass (cfg : Config) (task_mgr : TASK_MGR_t) (g : Globals)
    (hq : 0 < task_mgr.task_queue_ubound) (hgate : gatePasses cfg task_mgr g) :
    task_MyTask_Execute cfg task_mgr g = stateMachine cfg task_mgr 1 (gated cfg task_mgr g) := by
  rw [execute_eq cfg task_mgr g hq, if_neg hgate]

theorem stateMachine_init_row (cfg : Config) (task_mgr : TASK_MGR_t) (g : Globals)
    (hq : 0 < task_mgr.task_queue_ubound) (hs : g.my_task.state = MYTASK_INITIALIZE) :
    stateMachine cfg task_mgr 1 g = task_MyTask_Initialize cfg task_mgr g := by
  unfold stateMachine
  simp only [hs, if_true]
  rw [initialize_eq cfg task_mgr g hq]
  rfl

theorem stateMachine_idle (cfg : Config) (task_mgr : TASK_MGR_t) (g : Globals)
    (hs : g.my_task.state = MYTASK_IDLE) :
    stateMachine cfg task_mgr 1 g =
      some (1, captureLed cfg { g with
        led := DBGLED_WR g.led cfg.LED_ON
        my_task := { g.my_task with
          state := if g.my_task.enable then MYTASK_RUN else MYTASK_IDLE } }) := by
  obtain ⟨⟨en, ls, rd, iv, st⟩, ts, tm, pm, led⟩ := g
  simp only at hs
  subst hs
  have h0 : ¬ (MYTASK_IDLE = MYTASK_INITIALIZE) := by decide
  cases en <;> simp [stateMachine, h0]

theorem stateMachine_run (cfg : Config) (task_mgr : TASK_MGR_t) (g : Globals)
    (hs : g.my_task.state = MYTASK_RUN) :
    stateMachine cfg task_mgr 1 g =
      some (1, captureLed cfg { g with led := DBGLED_TOGGLE g.led }) := by
  unfold stateMachine
  have h0 : ¬ (MYTASK_RUN = MYTASK_INITIALIZE) := by decide
  have h1 : ¬ (MYTASK_RUN = MYTASK_IDLE) := by decide
  simp [hs, h0, h1]

theorem stateMachine_fault (cfg : Config) (task_mgr : TASK_MGR_t) (g : Globals)
    (hs : isFaultState g.my_task.state) :
    stateMachine cfg task_mgr 1 g = some (1, captureLed cfg (task_MyTask_Stop g).2) := by
  unfold stateMachine
  obtain ⟨h0, h1, h2⟩ := hs
  simp [h0, h1, h2]

/-! ## The claims -/

/-- C1: when the gate passes (queue length at least one), one call of `task_MyTask_Execute`
returns 1 and performs exactly one row of the transition table on the gated globals: from
INITIALIZE it is the call of `task_MyTask_Initialize` and the next state is IDLE; from IDLE it
writes `LED_ON` and the next state is RUN if `enable` and IDLE otherwise; from RUN it toggles
the pin and stays in RUN; from any other value it is `task_MyTask_Stop` and the next state is
INITIALIZE. -/
theorem execute_performs_one_table_row (cfg : Config) (task_mgr : TASK_MGR_t) (g : Globals)
    (hq : 0 < task_mgr.task_queue_ubound) (hgate : gatePasses cfg task_mgr g) :
    ∃ g' : Globals, task_MyTask_Execute cfg task_mgr g = some (1, g') ∧
      (g.my_task.state = MYTASK_INITIALIZE →
        task_MyTask_Initialize cfg task_mgr (gated cfg task_mgr g) = some (1, g') ∧
        g'.my_task.state = MYTASK_IDLE) ∧
      (g.my_task.state = MYTASK_IDLE →
        g' = captureLed cfg { gated cfg task_mgr g with
          led := DBGLED_WR g.led cfg.LED_ON
          my_task := { (gated cfg task_mgr g).my_task with
            state := if g.my_task.enable then MYTASK_RUN else MYTASK_IDLE } } ∧
        g'.my_task.state = (if g.my_task.enable then MYTASK_RUN else MYTASK_IDLE)) ∧
      (g.my_task.state = MYTASK_RUN →
        g' = captureLed cfg { gated cfg task_mgr g with led := DBGLED_TOGGLE g.led } ∧
        g'.my_task.state = MYTASK_RUN) ∧
      (isFaultState g.my_task.state →
        g' = captureLed cfg (task_MyTask_Stop (gated cfg task_mgr g)).2 ∧
        g'.my_task.state = MYTASK_INITIALIZE) := by
  rw [execute_gate_pass cfg task_mgr g hq hgate]
  have hst := gated_state cfg task_mgr g
  have hen := gated_enable cfg task_mgr g
  have hled := gated_led cfg task_mgr g
  by_cases h0 : g.my_task.state = MYTASK_INITIALIZE
  · have hi := initialize_eq cfg task_mgr (gated cfg task_mgr g) hq
    rw [stateMachine_init_row cfg task_mgr _ hq (hst.trans h0), hi]
    refine ⟨_, rfl, fun _ => ⟨rfl, rfl⟩, ?_, ?_, ?_⟩
    · intro h1
      rw [h0] at h1
      exact absurd h1 (by decide)
    · intro h2
      rw [h0] at h2
      exact absurd h2 (by decide)
    · intro hf
      exact absurd h0 hf.1
  · by_cases h1 : g.my_task.state = MYTASK_IDLE
    · rw [stateMachine_idle cfg task_mgr _ (hst.trans h1), hen, hled]
      refine ⟨_, rfl, fun h => absurd h h0, fun _ => ⟨rfl, rfl⟩, ?_, ?_⟩
      · intro h2
        rw [h1] at h2
        exact absurd h2 (by decide)
      · intro hf
        exact absurd h1 hf.2.1
    · by_cases h2 : g.my_task.state = MYTASK_RUN
      · rw [stateMachine_run cfg task_mgr _ (hst.trans h2), hled]
        exact ⟨_, rfl, fun h => absurd h h0, fun h => absurd h h1,
          fun _ => ⟨rfl, hst.trans h2⟩, fun hf => absurd h2 hf.2.2⟩
      · have hf : isFaultState (gated cfg task_mgr g).my_task.state := by
          rw [hst]
          exact ⟨h0, h1, h2⟩
        rw [stateMachine_fault cfg task_mgr _ hf]
        exact ⟨_, rfl, fun h => absurd h h0, fun h => absurd h h1, fun h => absurd h h2,
          fun _ => ⟨rfl, rfl⟩⟩

/-- Witness for C1: an enabled task in IDLE whose counter has reached the threshold moves
to RUN in one call. -/
theorem execute_performs_one_table_row_witness :
    ∃ g' : Globals, task_MyTask_Execute cfgEx mgrEx gIdleDue = some (1, g') ∧
      g'.my_task.state = MYTASK_RUN := by
  obtain ⟨g', hex, -, hidle, -, -⟩ :=
    execute_performs_one_table_row cfgEx mgrEx gIdleDue (by decide) (by decide)
  exact ⟨g', hex, (hidle rfl).2⟩

/-- Counterexample for C2: with a corrupted `state` and the gate counter below the threshold,
one call of `task_MyTask_Execute` only counts; `state` stays corrupted and `enable`,
`ready` stay set. -/
theorem execute_corrupt_below_threshold_keeps_state :
    isFaultState gCorrupt.my_task.state ∧
    ∃ g' : Globals, task_MyTask_Execute cfgEx mgrEx gCorrupt = some (1, g') ∧
      g'.my_task.state ≠ MYTASK_INITIALIZE ∧ g'.my_task.enable = true ∧
      g'.my_task.ready = true :=
  ⟨by decide, { gCorrupt with tick_scaler := 1 }, by decide, by decide, rfl, rfl⟩

/-- C2 (amended): for a queue length of at least one, when `state` is outside
{INITIALIZE, IDLE, RUN} and the gate passes, one call of `task_MyTask_Execute` returns 1 and
leaves `state == INITIALIZE`, `enable == false` and `ready == false`. -/
theorem execute_fault_self_heal (cfg : Config) (task_mgr : TASK_MGR_t) (g : Globals)
    (hq : 0 < task_mgr.task_queue_ubound) (hf : isFaultState g.my_task.state)
    (hgate : gatePasses cfg task_mgr g) :
    ∃ g' : Globals, task_MyTask_Execute cfg task_mgr g = some (1, g') ∧
      g'.my_task.state = MYTASK_INITIALIZE ∧ g'.my_task.enable = false ∧
      g'.my_task.ready = false := by
  have hf' : isFaultState (gated cfg task_mgr g).my_task.state := by
    rw [gated_state]
    exact hf
  rw [execute_gate_pass cfg task_mgr g hq hgate, stateMachine_fault cfg task_mgr _ hf']
  exact ⟨_, rfl, rfl, rfl, rfl⟩

/-- Witness for C2 (amended): the corrupted globals with the counter at the threshold. -/
theorem execute_fault_self_heal_witness :
    ∃ g' : Globals, task_MyTask_Execute cfgEx mgrEx gCorruptDue = some (1, g') ∧
      g'.my_task.state = MYTASK_INITIALIZE ∧ g'.my_task.enable = false ∧
      g'.my_task.ready = false :=
  execute_fault_self_heal cfgEx mgrEx gCorruptDue (by decide) (by decide) (by decide)

/-! ### Timebase arithmetic -/

theorem wrap_pred (n : Nat) (h1 : 1 ≤ n) (h2 : n < 65536) : (n + 65535) % 65536 = n - 1 := by
  omega

theorem pred_div_of_dvd (n Q : Nat) (hq : 0 < Q) (h1 : 1 ≤ n) (hd : Q ∣ n) :
    (n - 1) / Q = n / Q - 1 := by
  obtain ⟨k, rfl⟩ := hd
  have hk : 1 ≤ k := by
    rcases Nat.eq_zero_or_pos k with h0 | h0
    · subst h0
      simp at h1
    · exact h0
  rw [Nat.mul_div_cancel_left _ hq]
  obtain ⟨j, rfl⟩ : ∃ j, k = j + 1 := ⟨k - 1, by omega⟩
  have hsplit : Q * (j + 1) - 1 = (Q - 1) + Q * j := by
    rw [Nat.mul_succ]
    omega
  rw [hsplit, Nat.add_mul_div_left _ _ hq, Nat.div_eq_of_lt (by omega)]
  simp

theorem selectedTicks_eq (cfg : Config) (task_mgr : TASK_MGR_t)
    (hlo : 1 ≤ selectedCount cfg task_mgr) (hhi : selectedCount cfg task_mgr < 65536) :
    selectedTicks cfg task_mgr = selectedCount cfg task_mgr - 1 := by
  rw [← wrap_pred _ hlo hhi]
  unfold selectedTicks selectedCount FAULT_TICKS DEFAULT_TICKS
  split <;> rfl

theorem cfgEx_DEFAULT_TICKS : DEFAULT_TICKS cfgEx = 2999 := by
  decide

theorem cfgEx_FAULT_TICKS : FAULT_TICKS cfgEx = 499 := by
  decide

theorem cfgBinary64_DEFAULT_TICKS : DEFAULT_TICKS cfgBinary64 = 2998 := by
  decide

theorem quotientBinary64_close :
    |quotientBinary64 - DEFAULT_INNTERVAL / cfgBinary64.TASK_MGR_TIME_STEP| < 1 := by
  have hq : quotientBinary64 - DEFAULT_INNTERVAL / cfgBinary64.TASK_MGR_TIME_STEP
      = -(1 / 2 ^ 41) := by
    norm_num [quotientBinary64, DEFAULT_INNTERVAL, cfgBinary64]
  rw [hq, abs_neg, abs_of_pos (by positivity)]
  norm_num

theorem quotientBinary64_floor : ⌊quotientBinary64⌋ = 2999 := by
  rw [Int.floor_eq_iff]
  norm_num [quotientBinary64]

/-- Counterexample for C3: with the 100 us base tick, the normal period and a queue of seven
tasks, `floor(NORMAL_PERIOD/(T*Q)) - 1` is 427, while `task_MyTask_UpdateTimebase` sets the
threshold to 428, both when the quotient folds to its exact value (3000, then 2999/7) and
when it folds as in IEEE binary64 (2999, then 2998/7). -/
theorem updateTimebase_seven_tasks_differs :
    mgrSeven.op_mode ≠ cfgEx.OP_MODE_FAULT ∧
    specThreshold DEFAULT_INNTERVAL cfgEx.TASK_MGR_TIME_STEP mgrSeven.task_queue_ubound
      = 427 ∧
    (∃ g' : Globals,
      task_MyTask_UpdateTimebase cfgEx mgrSeven (powerOn cfgEx ledEx) = some (1, g') ∧
      g'.tick_scale_max = 428) ∧
    (∃ g' : Globals,
      task_MyTask_UpdateTimebase cfgBinary64 mgrSeven (powerOn cfgBinary64 ledEx)
        = some (1, g') ∧
      g'.tick_scale_max = 428) := by
  refine ⟨by decide, ?_, ⟨_, updateTimebase_eq cfgEx mgrSeven _ (by decide), by decide⟩,
    ⟨_, updateTimebase_eq cfgBinary64 mgrSeven _ (by decide), by decide⟩⟩
  have hfl : ⌊DEFAULT_INNTERVAL / (cfgEx.TASK_MGR_TIME_STEP * ((7 : ℕ) : ℚ))⌋ = 428 := by
    rw [Int.floor_eq_iff]
    norm_num [DEFAULT_INNTERVAL, cfgEx]
  show ⌊DEFAULT_INNTERVAL / (cfgEx.TASK_MGR_TIME_STEP * ((7 : ℕ) : ℚ))⌋ - 1 = 427
  rw [hfl]
  rfl

/-- C3 (amended): let `N` be the 16-bit value the compiler folds
`(uint16_t)(PERIOD/TASK_MGR_TIME_STEP)` to (PERIOD the fault period in the fault mode, the
normal period in every other mode). For `N >= 1` and a queue length `Q >= 1`,
`task_MyTask_UpdateTimebase` returns 1 and sets the threshold to `floor((N - 1)/Q)`; when
`N` is the exact `floor(PERIOD/T)` (periods and `T` as exact rationals) and `Q` divides `N`,
this is `floor(PERIOD/(T*Q)) - 1`. -/
theorem updateTimebase_threshold_formula (cfg : Config) (task_mgr : TASK_MGR_t) (g : Globals)
    (hq : 0 < task_mgr.task_queue_ubound)
    (hlo : 1 ≤ selectedCount cfg task_mgr) (hhi : selectedCount cfg task_mgr < 65536) :
    ∃ g' : Globals, task_MyTask_UpdateTimebase cfg task_mgr g = some (1, g') ∧
      g'.tick_scale_max = (selectedCount cfg task_mgr - 1) / task_mgr.task_queue_ubound ∧
      ((selectedCount cfg task_mgr : ℤ)
          = ⌊selectedPeriod cfg task_mgr / cfg.TASK_MGR_TIME_STEP⌋ →
        task_mgr.task_queue_ubound ∣ selectedCount cfg task_mgr →
        (g'.tick_scale_max : ℤ) =
          specThreshold (selectedPeriod cfg task_mgr) cfg.TASK_MGR_TIME_STEP
            task_mgr.task_queue_ubound) := by
  have hsel := selectedTicks_eq cfg task_mgr hlo hhi
  have hlt : (selectedCount cfg task_mgr - 1) / task_mgr.task_queue_ubound < 65536 :=
    lt_of_le_of_lt (Nat.div_le_self _ _) (by omega)
  have hthr : selectedTicks cfg task_mgr / task_mgr.task_queue_ubound % 65536
      = (selectedCount cfg task_mgr - 1) / task_mgr.task_queue_ubound := by
    rw [hsel, Nat.mod_eq_of_lt hlt]
  refine ⟨_, updateTimebase_eq cfg task_mgr g hq, hthr, ?_⟩
  intro hexact hd
  generalize hP : selectedPeriod cfg task_mgr = P at *
  generalize hT : cfg.TASK_MGR_TIME_STEP = T at *
  generalize hQ : task_mgr.task_queue_ubound = Q at *
  generalize hN : selectedCount cfg task_mgr = N at *
  have hx : (0 : ℚ) ≤ P / T := by
    have h0 : (0 : ℤ) ≤ ⌊P / T⌋ := by omega
    exact Int.floor_nonneg.mp h0
  have hnat : ⌊P / T⌋₊ = N := by
    have hcast : ((⌊P / T⌋₊ : ℕ) : ℤ) = ⌊P / T⌋ := Int.natCast_floor_eq_floor hx
    omega
  have hxq : (0 : ℚ) ≤ P / T / (Q : ℚ) := div_nonneg hx (Nat.cast_nonneg Q)
  have hfloor : ⌊P / (T * (Q : ℚ))⌋ = ((N / Q : ℕ) : ℤ) := by
    rw [← div_div, ← Int.natCast_floor_eq_floor hxq, Nat.floor_div_nat, hnat]
  have hq1 : 1 ≤ N / Q := by
    obtain ⟨k, hk⟩ := hd
    rw [hk, Nat.mul_div_cancel_left _ hq]
    rcases Nat.eq_zero_or_pos k with h0 | h0
    · subst h0
      omega
    · exact h0
  show ((selectedTicks cfg task_mgr / Q % 65536 : ℕ) : ℤ) = _
  rw [hthr, pred_div_of_dvd _ _ hq hlo hd]
  unfold specThreshold
  rw [hfloor]
  push_cast [hq1]
  rfl

theorem cfgEx_period_ticks :
    ⌊selectedPeriod cfgEx mgrEx / cfgEx.TASK_MGR_TIME_STEP⌋ = 3000 := by
  norm_num [selectedPeriod, mgrEx, cfgEx, DEFAULT_INNTERVAL]

/-- Witness for C3 (amended): 100 us base tick, normal period, queue of ten tasks, the
quotient folded to its exact value 3000; ten divides 3000, so the threshold is the
specification value. -/
theorem updateTimebase_threshold_formula_witness :
    ∃ g' : Globals,
      task_MyTask_UpdateTimebase cfgEx mgrEx (powerOn cfgEx ledEx) = some (1, g') ∧
      (g'.tick_scale_max : ℤ) =
        specThreshold (selectedPeriod cfgEx mgrEx) cfgEx.TASK_MGR_TIME_STEP
          mgrEx.task_queue_ubound := by
  obtain ⟨g', hex, -, hdvd⟩ :=
    updateTimebase_threshold_formula cfgEx mgrEx (powerOn cfgEx ledEx) (by decide)
      (by decide) (by decide)
  exact ⟨g', hex, hdvd (by rw [cfgEx_period_ticks]; decide) (by decide)⟩

/-- C4: with a base tick of 100e-6 s, the normal period 300e-3 s, a queue of ten tasks and
an operating mode other than the fault mode, `task_MyTask_UpdateTimebase` returns 1 and sets
`tick_scale_max` to exactly 299, whatever value `q` within 1 of the exact quotient the
compiler folds the floating-point division to before converting it to 16 bits (3000 exactly,
`3000 - 2^-41` in IEEE binary64). -/
theorem updateTimebase_spec_example (cfg : Config) (task_mgr : TASK_MGR_t) (g : Globals)
    (q : ℚ) (hT : cfg.TASK_MGR_TIME_STEP = 100e-6)
    (hfold : |q - DEFAULT_INNTERVAL / cfg.TASK_MGR_TIME_STEP| < 1)
    (hconv : cfg.DEFAULT_COUNT = ⌊q⌋.toNat)
    (hQ : task_mgr.task_queue_ubound = 10)
    (hm : task_mgr.op_mode ≠ cfg.OP_MODE_FAULT) :
    ∃ g' : Globals, task_MyTask_UpdateTimebase cfg task_mgr g = some (1, g') ∧
      g'.tick_scale_max = 299 := by
  have hexact : DEFAULT_INNTERVAL / cfg.TASK_MGR_TIME_STEP = 3000 := by
    rw [hT]
    norm_num [DEFAULT_INNTERVAL]
  rw [hexact, abs_lt] at hfold
  have hlo : (2999 : ℤ) ≤ ⌊q⌋ := Int.le_floor.mpr (by push_cast; linarith [hfold.1])
  have hhi : ⌊q⌋ < (3001 : ℤ) := Int.floor_lt.mpr (by push_cast; linarith [hfold.2])
  have hcount : cfg.DEFAULT_COUNT = 2999 ∨ cfg.DEFAULT_COUNT = 3000 := by
    rw [hconv]
    omega
  have hsel : selectedTicks cfg task_mgr = DEFAULT_TICKS cfg := by
    unfold selectedTicks
    rw [if_neg hm]
  refine ⟨_, updateTimebase_eq cfg task_mgr g (by omega), ?_⟩
  show selectedTicks cfg task_mgr / task_mgr.task_queue_ubound % 65536 = 299
  rw [hsel, hQ]
  unfold DEFAULT_TICKS
  rcases hcount with h | h <;> rw [h]

/-- Witness for C4: the configuration with the exactly folded quotient and the one with the
IEEE binary64 quotient both give the threshold 299. -/
theorem updateTimebase_spec_example_witness :
    (∃ g' : Globals,
      task_MyTask_UpdateTimebase cfgEx mgrEx (powerOn cfgEx ledEx) = some (1, g') ∧
      g'.tick_scale_max = 299) ∧
    (∃ g' : Globals,
      task_MyTask_UpdateTimebase cfgBinary64 mgrEx (powerOn cfgBinary64 ledEx)
        = some (1, g') ∧
      g'.tick_scale_max = 299) :=
  ⟨updateTimebase_spec_example cfgEx mgrEx (powerOn cfgEx ledEx) 3000 (by rfl)
      (by norm_num [DEFAULT_INNTERVAL, cfgEx]) (by simp [cfgEx]) (by rfl)
      (by decide),
    updateTimebase_spec_example cfgBinary64 mgrEx (powerOn cfgBinary64 ledEx)
      quotientBinary64 (by rfl) quotientBinary64_close
      (by rw [quotientBinary64_floor]; rfl) (by rfl) (by decide)⟩

/-- C5: for a queue length of at least one, a second call of `task_MyTask_Initialize` right
after the first (same operating mode and queue length) returns 1 again and yields the same
control object `my_task` (enable, led_state, ready, interval, state), indeed the same
globals altogether, as the first call. -/
theorem initialize_idempotent (cfg : Config) (task_mgr : TASK_MGR_t) (g : Globals)
    (hq : 0 < task_mgr.task_queue_ubound) :
    ∃ g1 g2 : Globals, task_MyTask_Initialize cfg task_mgr g = some (1, g1) ∧
      task_MyTask_Initialize cfg task_mgr g1 = some (1, g2) ∧
      g2.my_task = g1.my_task ∧ g2 = g1 := by
  refine ⟨_, _, initialize_eq cfg task_mgr g hq, initialize_eq cfg task_mgr _ hq, ?_, ?_⟩ <;>
    rfl

/-- Witness for C5: two initialisations from power-on. -/
theorem initialize_idempotent_witness :
    ∃ g1 g2 : Globals, task_MyTask_Initialize cfgEx mgrEx (powerOn cfgEx ledEx) = some (1, g1) ∧
      task_MyTask_Initialize cfgEx mgrEx g1 = some (1, g2) ∧
      g2.my_task = g1.my_task ∧ g2 = g1 :=
  initialize_idempotent cfgEx mgrEx (powerOn cfgEx ledEx) (by decide)

/-- C6: for a queue length of at least one and any prior globals, `task_MyTask_Initialize`
returns 1 and leaves the pin configured as an output with the latch at `LED_OFF`,
`enable == false`, `ready == true`, `state == IDLE`, `led_state` equal to the level read back
from the pin, and `tick_scale_max` equal to the value `task_MyTask_UpdateTimebase` computes
for the same mode and queue length. -/
theorem initialize_postcondition (cfg : Config) (task_mgr : TASK_MGR_t) (g : Globals)
    (hq : 0 < task_mgr.task_queue_ubound) :
    ∃ g' : Globals, task_MyTask_Initialize cfg task_mgr g = some (1, g') ∧
      g'.led.is_output = true ∧ g'.led.latch = cfg.LED_OFF ∧
      g'.my_task.enable = false ∧ g'.my_task.ready = true ∧
      g'.my_task.state = MYTASK_IDLE ∧
      g'.my_task.led_state = cfg.DBGLED_RD g'.led ∧
      ∃ gu : Globals, task_MyTask_UpdateTimebase cfg task_mgr g = some (1, gu) ∧
        g'.tick_scale_max = gu.tick_scale_max :=
  ⟨_, initialize_eq cfg task_mgr g hq, rfl, rfl, rfl, rfl, rfl, rfl,
    _, updateTimebase_eq cfg task_mgr g hq, rfl⟩

/-- Witness for C6: initialisation of an enabled, running task. -/
theorem initialize_postcondition_witness :
    ∃ g' : Globals, task_MyTask_Initialize cfgEx mgrEx gIdleDue = some (1, g') ∧
      g'.led.is_output = true ∧ g'.led.latch = cfgEx.LED_OFF ∧
      g'.my_task.enable = false ∧ g'.my_task.ready = true ∧
      g'.my_task.state = MYTASK_IDLE ∧
      g'.my_task.led_state = cfgEx.DBGLED_RD g'.led ∧
      ∃ gu : Globals, task_MyTask_UpdateTimebase cfgEx mgrEx gIdleDue = some (1, gu) ∧
        g'.tick_scale_max = gu.tick_scale_max :=
  initialize_postcondition cfgEx mgrEx gIdleDue (by decide)

/-- C7: for any globals, `task_MyTask_Stop` returns 1, releases the pin to input (latch
untouched) and leaves `enable == false`, `ready == false`, `state == INITIALIZE`; a second
call yields exactly the same result and globals as the first. -/
theorem stop_fixed_outcome_idempotent (g : Globals) :
    (task_MyTask_Stop g).1 = 1 ∧
    (task_MyTask_Stop g).2.led.is_output = false ∧
    (task_MyTask_Stop g).2.led = DBGLED_INIT_INPUT g.led ∧
    (task_MyTask_Stop g).2.my_task.enable = false ∧
    (task_MyTask_Stop g).2.my_task.ready = false ∧
    (task_MyTask_Stop g).2.my_task.state = MYTASK_INITIALIZE ∧
    task_MyTask_Stop (task_MyTask_Stop g).2 = task_MyTask_Stop g :=
  ⟨rfl, rfl, rfl, rfl, rfl, rfl, rfl⟩

/-- C8: for any globals, `task_MyTask_Start` returns 1, sets `enable` and writes `LED_ON`
to the pin latch, and changes nothing else: the pin direction, `state`, `ready`, `interval`,
`led_state`, the gate counter, the gate threshold and the recorded mode are unchanged. -/
theorem start_frame (cfg : Config) (g : Globals) :
    (task_MyTask_Start cfg g).1 = 1 ∧
    (task_MyTask_Start cfg g).2.my_task.enable = true ∧
    (task_MyTask_Start cfg g).2.led.latch = cfg.LED_ON ∧
    (task_MyTask_Start cfg g).2.led.is_output = g.led.is_output ∧
    (task_MyTask_Start cfg g).2.my_task.state = g.my_task.state ∧
    (task_MyTask_Start cfg g).2.my_task.ready = g.my_task.ready ∧
    (task_MyTask_Start cfg g).2.my_task.interval = g.my_task.interval ∧
    (task_MyTask_Start cfg g).2.my_task.led_state = g.my_task.led_state ∧
    (task_MyTask_Start cfg g).2.tick_scaler = g.tick_scaler ∧
    (task_MyTask_Start cfg g).2.tick_scale_max = g.tick_scale_max ∧
    (task_MyTask_Start cfg g).2.pre_op_mode = g.pre_op_mode :=
  ⟨rfl, rfl, rfl, rfl, rfl, rfl, rfl, rfl, rfl, rfl, rfl⟩

/-! ### How one call of `task_MyTask_Execute` moves the control flags -/

theorem execute_zero_queue_mode_change (cfg : Config) (task_mgr : TASK_MGR_t) (g : Globals)
    (hm : g.pre_op_mode ≠ task_mgr.op_mode) (h0 : task_mgr.task_queue_ubound = 0) :
    task_MyTask_Execute cfg task_mgr g = none := by
  simp [task_MyTask_Execute, task_MyTask_UpdateTimebase, hm, h0]

theorem execute_eq_same_mode (cfg : Config) (task_mgr : TASK_MGR_t) (g : Globals)
    (hm : g.pre_op_mode = task_mgr.op_mode) :
    task_MyTask_Execute cfg task_mgr g =
      if g.tick_scaler < g.tick_scale_max then
        some (1, { g with tick_scaler := (g.tick_scaler + 1) % 65536 })
      else
        stateMachine cfg task_mgr 1 { g with tick_scaler := 0 } := by
  simp [task_MyTask_Execute, hm]

theorem stateMachine_initialize_zero_queue (cfg : Config) (task_mgr : TASK_MGR_t)
    (fres : Nat) (g : Globals) (hs : g.my_task.state = MYTASK_INITIALIZE)
    (h0 : task_mgr.task_queue_ubound = 0) :
    stateMachine cfg task_mgr fres g = none := by
  simp [stateMachine, task_MyTask_Initialize, task_MyTask_UpdateTimebase, hs, h0]

theorem stateMachine_flagStep (cfg : Config) (task_mgr : TASK_MGR_t) (g : Globals)
    (r : Nat) (g' : Globals) (h : stateMachine cfg task_mgr 1 g = some (r, g')) :
    FlagStep g g' := by
  by_cases h0 : g.my_task.state = MYTASK_INITIALIZE
  · rcases Nat.eq_zero_or_pos task_mgr.task_queue_ubound with hz | hq
    · rw [stateMachine_initialize_zero_queue cfg task_mgr 1 g h0 hz] at h
      cases h
    · rw [stateMachine_init_row cfg task_mgr g hq h0, initialize_eq cfg task_mgr g hq] at h
      cases h
      exact Or.inr (Or.inl ⟨h0, rfl, rfl, rfl⟩)
  · by_cases h1 : g.my_task.state = MYTASK_IDLE
    · rw [stateMachine_idle cfg task_mgr g h1] at h
      cases h
      cases he : g.my_task.enable
      · refine Or.inl ⟨?_, ?_, rfl⟩
        · simp [captureLed, he, h1]
        · simp [captureLed, he]
      · refine Or.inr (Or.inr (Or.inl ⟨h1, he, ?_, ?_, rfl⟩))
        · simp [captureLed, he]
        · simp [captureLed, he]
    · by_cases h2 : g.my_task.state = MYTASK_RUN
      · rw [stateMachine_run cfg task_mgr g h2] at h
        cases h
        exact Or.inl ⟨rfl, rfl, rfl⟩
      · rw [stateMachine_fault cfg task_mgr g ⟨h0, h1, h2⟩] at h
        cases h
        exact Or.inr (Or.inr (Or.inr ⟨⟨h0, h1, h2⟩, rfl, rfl, rfl⟩))

theorem flagStep_of_flags_eq {g₀ g g' : Globals}
    (hs : g.my_task.state = g₀.my_task.state) (he : g.my_task.enable = g₀.my_task.enable)
    (hr : g.my_task.ready = g₀.my_task.ready) (h : FlagStep g g') : FlagStep g₀ g' := by
  unfold FlagStep at h ⊢
  rw [hs, he, hr] at h
  exact h

theorem execute_flagStep (cfg : Config) (task_mgr : TASK_MGR_t) (g : Globals)
    (r : Nat) (g' : Globals) (h : task_MyTask_Execute cfg task_mgr g = some (r, g')) :
    FlagStep g g' := by
  by_cases hm : g.pre_op_mode = task_mgr.op_mode
  · rw [execute_eq_same_mode cfg task_mgr g hm] at h
    split at h
    · cases h
      exact Or.inl ⟨rfl, rfl, rfl⟩
    · exact @flagStep_of_flags_eq g { g with tick_scaler := 0 } g' rfl rfl rfl
        (stateMachine_flagStep cfg task_mgr { g with tick_scaler := 0 } r g' h)
  · rcases Nat.eq_zero_or_pos task_mgr.task_queue_ubound with hz | hq
    · rw [execute_zero_queue_mode_change cfg task_mgr g hm hz] at h
      cases h
    · rw [execute_eq cfg task_mgr g hq] at h
      split at h
      · cases h
        refine Or.inl ⟨?_, ?_, ?_⟩
        · exact gated_state cfg task_mgr g
        · exact gated_enable cfg task_mgr g
        · exact gated_ready cfg task_mgr g
      · exact flagStep_of_flags_eq (gated_state cfg task_mgr g) (gated_enable cfg task_mgr g)
          (gated_ready cfg task_mgr g) (stateMachine_flagStep cfg task_mgr _ r g' h)

theorem initialize_flags (cfg : Config) (task_mgr : TASK_MGR_t) (g : Globals)
    (r : Nat) (g' : Globals) (h : task_MyTask_Initialize cfg task_mgr g = some (r, g')) :
    g'.my_task.state = MYTASK_IDLE ∧ g'.my_task.enable = false ∧ g'.my_task.ready = true := by
  rcases Nat.eq_zero_or_pos task_mgr.task_queue_ubound with hz | hq
  · simp [task_MyTask_Initialize, task_MyTask_UpdateTimebase, hz] at h
  · rw [initialize_eq cfg task_mgr g hq] at h
    cases h
    exact ⟨rfl, rfl, rfl⟩

theorem flagStep_runImpliesEnable {g g' : Globals} (h : FlagStep g g')
    (hinv : runImpliesEnable g) : runImpliesEnable g' := by
  unfold runImpliesEnable at hinv ⊢
  rcases h with ⟨hs, he, -⟩ | ⟨-, hs, -, -⟩ | ⟨-, -, -, he, -⟩ | ⟨-, hs, -, -⟩
  · rw [hs, he]
    exact hinv
  · intro hrun
    rw [hs] at hrun
    exact absurd hrun (by decide)
  · intro _
    exact he
  · intro hrun
    rw [hs] at hrun
    exact absurd hrun (by decide)

theorem flagStep_readyImpliesActive {g g' : Globals} (h : FlagStep g g')
    (hinv : readyImpliesActive g) : readyImpliesActive g' := by
  unfold readyImpliesActive at hinv ⊢
  rcases h with ⟨hs, -, hr⟩ | ⟨-, hs, -, -⟩ | ⟨-, -, hs, -, -⟩ | ⟨-, -, -, hr⟩
  · rw [hs, hr]
    exact hinv
  · intro _
    exact Or.inl hs
  · intro _
    exact Or.inr hs
  · intro hrdy
    rw [hr] at hrdy
    cases hrdy

theorem stateMachine_returns (cfg : Config) (task_mgr : TASK_MGR_t) (g : Globals)
    (hq : 0 < task_mgr.task_queue_ubound) :
    ∃ g' : Globals, stateMachine cfg task_mgr 1 g = some (1, g') := by
  by_cases h0 : g.my_task.state = MYTASK_INITIALIZE
  · exact ⟨_, (stateMachine_init_row cfg task_mgr g hq h0).trans
      (initialize_eq cfg task_mgr g hq)⟩
  · by_cases h1 : g.my_task.state = MYTASK_IDLE
    · exact ⟨_, stateMachine_idle cfg task_mgr g h1⟩
    · by_cases h2 : g.my_task.state = MYTASK_RUN
      · exact ⟨_, stateMachine_run cfg task_mgr g h2⟩
      · exact ⟨_, stateMachine_fault cfg task_mgr g ⟨h0, h1, h2⟩⟩

/-! ### A run from power-on to RUN -/

theorem initialize_powerOn_long :
    task_MyTask_Initialize cfgEx mgrLong (powerOn cfgEx ledEx) = some (1, gInitLong) := by
  rw [initialize_eq cfgEx mgrLong _ (by decide)]
  have hsel : selectedTicks cfgEx mgrLong = 2999 := by
    unfold selectedTicks
    rw [if_neg (by decide), cfgEx_DEFAULT_TICKS]
  rw [hsel, cfgEx_DEFAULT_TICKS]
  rfl

theorem execute_started_long :
    task_MyTask_Execute cfgEx mgrLong (task_MyTask_Start cfgEx gInitLong).2
      = some (1, gRunLong) := by
  decide

theorem reachable_gRunLong : Reachable cfgEx gRunLong :=
  Reachable.execute mgrLong _ 1 _
    (Reachable.start _
      (Reachable.init mgrLong _ 1 _ (Reachable.power_on ledEx) initialize_powerOn_long))
    execute_started_long

/-- C9: in every state reachable from power-on by calls of Initialize, Start, Execute and
Stop with any scheduler data, `state == RUN` implies `enable == true`. -/
theorem reachable_run_implies_enable (cfg : Config) (g : Globals) (h : Reachable cfg g) :
    g.my_task.state = MYTASK_RUN → g.my_task.enable = true := by
  show runImpliesEnable g
  induction h with
  | power_on led =>
    intro hrun
    have hne : MYTASK_INITIALIZE = MYTASK_RUN := hrun
    exact absurd hne (by decide)
  | init task_mgr g r g' _ hcall _ =>
    intro hrun
    rw [(initialize_flags cfg task_mgr g r g' hcall).1] at hrun
    exact absurd hrun (by decide)
  | start g _ _ =>
    intro _
    rfl
  | execute task_mgr g r g' _ hcall ih =>
    exact flagStep_runImpliesEnable (execute_flagStep cfg task_mgr g r g' hcall) ih
  | stop g _ _ =>
    intro hrun
    have hne : MYTASK_INITIALIZE = MYTASK_RUN := hrun
    exact absurd hne (by decide)

/-- Witness for C9: power-on, Initialize, Start and one gate-passing Execute reach RUN, and
`enable` is set there. -/
theorem reachable_run_implies_enable_witness :
    gRunLong.my_task.state = MYTASK_RUN ∧ gRunLong.my_task.enable = true :=
  ⟨rfl, reachable_run_implies_enable cfgEx gRunLong reachable_gRunLong rfl⟩

/-- C10: in every state reachable from power-on by calls of Initialize, Start, Execute and
Stop, `ready == true` implies `state` is IDLE or RUN; and each of the four operations
preserves this predicate from any globals that satisfy it (Initialize and Execute return for
every queue length of at least one, and preserve it whenever they return). -/
theorem ready_implies_active_invariant (cfg : Config) :
    (∀ g : Globals, Reachable cfg g → readyImpliesActive g) ∧
    (∀ (task_mgr : TASK_MGR_t) (g : Globals), readyImpliesActive g →
      (0 < task_mgr.task_queue_ubound →
        ∃ g' : Globals, task_MyTask_Initialize cfg task_mgr g = some (1, g')) ∧
      (∀ (r : Nat) (g' : Globals), task_MyTask_Initialize cfg task_mgr g = some (r, g') →
        readyImpliesActive g')) ∧
    (∀ g : Globals, readyImpliesActive g → readyImpliesActive (task_MyTask_Start cfg g).2) ∧
    (∀ (task_mgr : TASK_MGR_t) (g : Globals), readyImpliesActive g →
      (0 < task_mgr.task_queue_ubound →
        ∃ (r : Nat) (g' : Globals), task_MyTask_Execute cfg task_mgr g = some (r, g')) ∧
      (∀ (r : Nat) (g' : Globals), task_MyTask_Execute cfg task_mgr g = some (r, g') →
        readyImpliesActive g')) ∧
    (∀ g : Globals, readyImpliesActive g → readyImpliesActive (task_MyTask_Stop g).2) := by
  have hinit : ∀ (task_mgr : TASK_MGR_t) (g : Globals) (r : Nat) (g' : Globals),
      task_MyTask_Initialize cfg task_mgr g = some (r, g') → readyImpliesActive g' := by
    intro task_mgr g r g' hcall _
    exact Or.inl (initialize_flags cfg task_mgr g r g' hcall).1
  have hstop : ∀ g : Globals, readyImpliesActive (task_MyTask_Stop g).2 := by
    intro g hrdy
    cases hrdy
  refine ⟨?_, ?_, ?_, ?_, ?_⟩
  · intro g h
    induction h with
    | power_on led =>
      intro hrdy
      cases hrdy
    | init task_mgr g r g' _ hcall _ => exact hinit task_mgr g r g' hcall
    | start g _ ih => exact ih
    | execute task_mgr g r g' _ hcall ih =>
      exact flagStep_readyImpliesActive (execute_flagStep cfg task_mgr g r g' hcall) ih
    | stop g _ _ => exact hstop g
  · intro task_mgr g _
    exact ⟨fun hq => ⟨_, initialize_eq cfg task_mgr g hq⟩, hinit task_mgr g⟩
  · intro g hinv
    exact hinv
  · intro task_mgr g hinv
    refine ⟨fun hq => ?_, fun r g' hcall =>
      flagStep_readyImpliesActive (execute_flagStep cfg task_mgr g r g' hcall) hinv⟩
    rw [execute_eq cfg task_mgr g hq]
    split
    · exact ⟨_, _, rfl⟩
    · obtain ⟨g', hg'⟩ := stateMachine_returns cfg task_mgr (gated cfg task_mgr g) hq
      exact ⟨1, g', hg'⟩
  · intro g _
    exact hstop g

/-- Witness for C10: the running state reached from power-on is ready and in RUN, and the
predicate survives a Stop from there. -/
theorem ready_implies_active_invariant_witness :
    gRunLong.my_task.ready = true ∧
    (gRunLong.my_task.state = MYTASK_IDLE ∨ gRunLong.my_task.state = MYTASK_RUN) ∧
    readyImpliesActive (task_MyTask_Stop gRunLong).2 :=
  ⟨rfl, (ready_implies_active_invariant cfgEx).1 gRunLong reachable_gRunLong rfl,
    (ready_implies_active_invariant cfgEx).2.2.2.2 gRunLong
      ((ready_implies_active_invariant cfgEx).1 gRunLong reachable_gRunLong)⟩

/-! ### Writes to `interval` -/

theorem afterModeCheck_interval (cfg : Config) (task_mgr : TASK_MGR_t) (g : Globals) :
    (afterModeCheck cfg task_mgr g).my_task.interval = g.my_task.interval ∨
    (afterModeCheck cfg task_mgr g).my_task.interval = selectedTicks cfg task_mgr := by
  unfold afterModeCheck
  split
  · exact Or.inr rfl
  · exact Or.inl rfl

theorem stateMachine_interval (cfg : Config) (task_mgr : TASK_MGR_t) (g : Globals)
    (hq : 0 < task_mgr.task_queue_ubound) :
    ∃ g' : Globals, stateMachine cfg task_mgr 1 g = some (1, g') ∧
      (g'.my_task.interval = g.my_task.interval ∨
        (g.my_task.state = MYTASK_INITIALIZE ∧ g'.my_task.interval = DEFAULT_TICKS cfg)) := by
  by_cases h0 : g.my_task.state = MYTASK_INITIALIZE
  · exact ⟨_, (stateMachine_init_row cfg task_mgr g hq h0).trans
      (initialize_eq cfg task_mgr g hq), Or.inr ⟨h0, rfl⟩⟩
  · by_cases h1 : g.my_task.state = MYTASK_IDLE
    · exact ⟨_, stateMachine_idle cfg task_mgr g h1, Or.inl rfl⟩
    · by_cases h2 : g.my_task.state = MYTASK_RUN
      · exact ⟨_, stateMachine_run cfg task_mgr g h2, Or.inl rfl⟩
      · exact ⟨_, stateMachine_fault cfg task_mgr g ⟨h0, h1, h2⟩, Or.inl rfl⟩

/-- Counterexample for C11: in the fault mode `task_MyTask_Initialize` from power-on leaves
`interval` at `DEFAULT_TICKS` (2999), which is neither the previous value (0) nor the value
`task_MyTask_UpdateTimebase` computes for the fault mode (`FAULT_TICKS`, 499). -/
theorem initialize_fault_mode_interval :
    mgrFault.op_mode = cfgEx.OP_MODE_FAULT ∧ 0 < mgrFault.task_queue_ubound ∧
    ∃ g' : Globals,
      task_MyTask_Initialize cfgEx mgrFault (powerOn cfgEx ledEx) = some (1, g') ∧
      g'.my_task.interval = 2999 ∧
      (powerOn cfgEx ledEx).my_task.interval = 0 ∧
      selectedTicks cfgEx mgrFault = 499 := by
  refine ⟨rfl, by decide, _, initialize_eq cfgEx mgrFault _ (by decide), ?_, rfl, ?_⟩
  · exact cfgEx_DEFAULT_TICKS
  · unfold selectedTicks
    rw [if_pos (by decide), cfgEx_FAULT_TICKS]

/-- C11 (amended): for every globals, operating mode and queue length of at least one:
`task_MyTask_Start` and `task_MyTask_Stop` leave `interval` unchanged; after
`task_MyTask_Execute` it is unchanged, or the value `task_MyTask_UpdateTimebase` selects for
the current mode, or, when the call runs Initialize from state INITIALIZE, `DEFAULT_TICKS`;
after `task_MyTask_Initialize` it is `DEFAULT_TICKS` in every operating mode, which is the
value of `task_MyTask_UpdateTimebase` in every mode but the fault mode. -/
theorem interval_after_each_operation (cfg : Config) (task_mgr : TASK_MGR_t) (g : Globals)
    (hq : 0 < task_mgr.task_queue_ubound) :
    (∃ g' : Globals, task_MyTask_Initialize cfg task_mgr g = some (1, g') ∧
      g'.my_task.interval = DEFAULT_TICKS cfg ∧
      (task_mgr.op_mode ≠ cfg.OP_MODE_FAULT →
        g'.my_task.interval = selectedTicks cfg task_mgr)) ∧
    (task_MyTask_Start cfg g).2.my_task.interval = g.my_task.interval ∧
    (task_MyTask_Stop g).2.my_task.interval = g.my_task.interval ∧
    (∃ g' : Globals, task_MyTask_Execute cfg task_mgr g = some (1, g') ∧
      (g'.my_task.interval = g.my_task.interval ∨
        g'.my_task.interval = selectedTicks cfg task_mgr ∨
        (g.my_task.state = MYTASK_INITIALIZE ∧ g'.my_task.interval = DEFAULT_TICKS cfg))) := by
  refine ⟨⟨_, initialize_eq cfg task_mgr g hq, rfl, ?_⟩, rfl, rfl, ?_⟩
  · intro hm
    unfold selectedTicks
    rw [if_neg hm]
  · have ham := afterModeCheck_interval cfg task_mgr g
    rw [execute_eq cfg task_mgr g hq]
    split
    · refine ⟨_, rfl, ?_⟩
      rcases ham with h | h
      · exact Or.inl h
      · exact Or.inr (Or.inl h)
    · obtain ⟨g', hg', hint⟩ := stateMachine_interval cfg task_mgr (gated cfg task_mgr g) hq
      refine ⟨g', hg', ?_⟩
      rcases hint with h | ⟨hs, h⟩
      · have hgi : (gated cfg task_mgr g).my_task.interval =
            (afterModeCheck cfg task_mgr g).my_task.interval := rfl
        rw [hgi] at h
        rcases ham with h' | h'
        · exact Or.inl (h.trans h')
        · exact Or.inr (Or.inl (h.trans h'))
      · exact Or.inr (Or.inr ⟨(gated_state cfg task_mgr g).symm.trans hs, h⟩)

/-- Witness for C11 (amended): the four operations in the fault mode from power-on. -/
theorem interval_after_each_operation_witness :
    ∃ g' : Globals, task_MyTask_Initialize cfgEx mgrFault (powerOn cfgEx ledEx) = some (1, g') ∧
      g'.my_task.interval = DEFAULT_TICKS cfgEx := by
  obtain ⟨⟨g', hcall, hint, -⟩, -, -, -⟩ :=
    interval_after_each_operation cfgEx mgrFault (powerOn cfgEx ledEx) (by decide)
  exact ⟨g', hcall, hint⟩

/-! ### Counting up to the gate -/

theorem afterModeCheck_tick_scaler (cfg : Config) (task_mgr : TASK_MGR_t) (g : Globals) :
    (afterModeCheck cfg task_mgr g).tick_scaler = g.tick_scaler := by
  unfold afterModeCheck
  split <;> rfl

theorem afterModeCheck_pre_op_mode (cfg : Config) (task_mgr : TASK_MGR_t) (g : Globals) :
    (afterModeCheck cfg task_mgr g).pre_op_mode = task_mgr.op_mode := by
  unfold afterModeCheck
  split
  · rfl
  · rename_i h
    exact not_not.mp h

theorem afterModeCheck_threshold_settled (cfg : Config) (task_mgr : TASK_MGR_t) (g : Globals)
    (hT : g.tick_scale_max =
      selectedTicks cfg task_mgr / task_mgr.task_queue_ubound % 65536) :
    (afterModeCheck cfg task_mgr g).tick_scale_max =
      selectedTicks cfg task_mgr / task_mgr.task_queue_ubound % 65536 := by
  unfold afterModeCheck
  split
  · rfl
  · exact hT

theorem executeToGate_from_idle (cfg : Config) (task_mgr : TASK_MGR_t)
    (hq : 0 < task_mgr.task_queue_ubound) (d : Nat) :
    ∀ g : Globals, g.my_task.state = MYTASK_IDLE → g.my_task.enable = true →
      g.tick_scale_max = selectedTicks cfg task_mgr / task_mgr.task_queue_ubound % 65536 →
      g.tick_scale_max - g.tick_scaler ≤ d →
      ∃ g' : Globals, executeToGate cfg task_mgr (d + 1) g = some g' ∧
        g'.my_task.state = MYTASK_RUN ∧ g'.my_task.enable = true ∧
        g'.tick_scaler = 0 ∧ g'.tick_scale_max = g.tick_scale_max ∧
        g'.pre_op_mode = task_mgr.op_mode := by
  induction d with
  | zero =>
    intro g hs he hT hd
    have hthr := afterModeCheck_threshold_settled cfg task_mgr g hT
    have hts := afterModeCheck_tick_scaler cfg task_mgr g
    have hgate : gatePasses cfg task_mgr g := by
      unfold gatePasses
      rw [hthr, hts, ← hT]
      omega
    have hst : (gated cfg task_mgr g).my_task.state = MYTASK_IDLE :=
      (gated_state cfg task_mgr g).trans hs
    have hen : (gated cfg task_mgr g).my_task.enable = true :=
      (gated_enable cfg task_mgr g).trans he
    unfold executeToGate
    rw [execute_gate_pass cfg task_mgr g hq hgate, stateMachine_idle cfg task_mgr _ hst]
    simp only [hgate, if_true]
    refine ⟨_, rfl, ?_, hen, rfl, ?_, ?_⟩
    · simp [captureLed, hen]
    · exact hthr.trans hT.symm
    · exact afterModeCheck_pre_op_mode cfg task_mgr g
  | succ d ih =>
    intro g hs he hT hd
    have hthr := afterModeCheck_threshold_settled cfg task_mgr g hT
    have hts := afterModeCheck_tick_scaler cfg task_mgr g
    have hst : (gated cfg task_mgr g).my_task.state = MYTASK_IDLE :=
      (gated_state cfg task_mgr g).trans hs
    have hen : (gated cfg task_mgr g).my_task.enable = true :=
      (gated_enable cfg task_mgr g).trans he
    by_cases hgate : gatePasses cfg task_mgr g
    · unfold executeToGate
      rw [execute_gate_pass cfg task_mgr g hq hgate, stateMachine_idle cfg task_mgr _ hst]
      simp only [hgate, if_true]
      refine ⟨_, rfl, ?_, hen, rfl, ?_, ?_⟩
      · simp [captureLed, hen]
      · exact hthr.trans hT.symm
      · exact afterModeCheck_pre_op_mode cfg task_mgr g
    · have hlt : (afterModeCheck cfg task_mgr g).tick_scaler <
          (afterModeCheck cfg task_mgr g).tick_scale_max := not_not.mp hgate
      have hlt' : g.tick_scaler < g.tick_scale_max := by
        rw [hthr, hts, ← hT] at hlt
        exact hlt
      have hbound : g.tick_scale_max < 65536 := by
        rw [hT]
        exact Nat.mod_lt _ (by decide)
      have hinc : (g.tick_scaler + 1) % 65536 = g.tick_scaler + 1 :=
        Nat.mod_eq_of_lt (by omega)
      unfold executeToGate
      rw [execute_eq cfg task_mgr g hq, if_pos hlt]
      simp only [hgate, if_false]
      obtain ⟨g', hrun, h1, h2, h3, h4, h5⟩ :=
        ih { afterModeCheck cfg task_mgr g with
              tick_scaler := ((afterModeCheck cfg task_mgr g).tick_scaler + 1) % 65536 }
          ((gated_state cfg task_mgr g).trans hs) ((gated_enable cfg task_mgr g).trans he)
          hthr
          (by
            show (afterModeCheck cfg task_mgr g).tick_scale_max -
              ((afterModeCheck cfg task_mgr g).tick_scaler + 1) % 65536 ≤ d
            rw [hthr, hts, ← hT, hinc]
            omega)
      exact ⟨g', hrun, h1, h2, h3, h4.trans (hthr.trans hT.symm), h5⟩

/-- Counterexample for C12: with a queue so long that the threshold is zero, Initialize,
Start and the first gate-passing Execute reach RUN, but the Execute call after the
subsequent Stop passes the gate as well, runs Initialize and ends in IDLE, not INITIALIZE. -/
theorem round_trip_zero_threshold_ends_idle :
    0 < mgrLong.task_queue_ubound ∧
    task_MyTask_Initialize cfgEx mgrLong (powerOn cfgEx ledEx) = some (1, gInitLong) ∧
    executeToGate cfgEx mgrLong 1 (task_MyTask_Start cfgEx gInitLong).2 = some gRunLong ∧
    gRunLong.my_task.state = MYTASK_RUN ∧
    ∃ g5 : Globals,
      task_MyTask_Execute cfgEx mgrLong (task_MyTask_Stop gRunLong).2 = some (1, g5) ∧
      g5.my_task.state = MYTASK_IDLE ∧ g5.my_task.state ≠ MYTASK_INITIALIZE := by
  refine ⟨by decide, initialize_powerOn_long, by decide, rfl, ?_⟩
  have hgate : gatePasses cfgEx mgrLong (task_MyTask_Stop gRunLong).2 := by decide
  have hs : (gated cfgEx mgrLong (task_MyTask_Stop gRunLong).2).my_task.state
      = MYTASK_INITIALIZE := by decide
  rw [execute_gate_pass cfgEx mgrLong _ (by decide) hgate,
    stateMachine_init_row cfgEx mgrLong _ (by decide) hs,
    initialize_eq cfgEx mgrLong _ (by decide)]
  exact ⟨_, rfl, rfl, by decide⟩

/-- C12 (amended): for a queue length of at least one and fixed scheduler data, from the
globals produced by `task_MyTask_Initialize`, Start followed by Execute calls up to and
including the first gate-passing call yields `state == RUN`; a subsequent Stop followed by
exactly one Execute call yields `state == INITIALIZE` when the gate threshold is at least
one, and `state == IDLE` when the threshold is zero (that call then passes the gate and runs
Initialize). -/
theorem enable_disable_round_trip (cfg : Config) (task_mgr : TASK_MGR_t) (g0 : Globals)
    (hq : 0 < task_mgr.task_queue_ubound) :
    ∃ (g1 : Globals) (fuel : Nat) (g3 : Globals),
      task_MyTask_Initialize cfg task_mgr g0 = some (1, g1) ∧
      executeToGate cfg task_mgr fuel (task_MyTask_Start cfg g1).2 = some g3 ∧
      g3.my_task.state = MYTASK_RUN ∧
      g3.tick_scale_max = selectedTicks cfg task_mgr / task_mgr.task_queue_ubound % 65536 ∧
      ∃ g5 : Globals,
        task_MyTask_Execute cfg task_mgr (task_MyTask_Stop g3).2 = some (1, g5) ∧
        (1 ≤ g3.tick_scale_max → g5.my_task.state = MYTASK_INITIALIZE) ∧
        (g3.tick_scale_max = 0 → g5.my_task.state = MYTASK_IDLE) := by
  obtain ⟨g1, hinit, hs1, hT1⟩ : ∃ g1 : Globals,
      task_MyTask_Initialize cfg task_mgr g0 = some (1, g1) ∧
      g1.my_task.state = MYTASK_IDLE ∧
      g1.tick_scale_max =
        selectedTicks cfg task_mgr / task_mgr.task_queue_ubound % 65536 :=
    ⟨_, initialize_eq cfg task_mgr g0 hq, rfl, rfl⟩
  obtain ⟨g3, hrun, hs3, -, hts3, hthr3, hmode3⟩ :=
    executeToGate_from_idle cfg task_mgr hq
      ((task_MyTask_Start cfg g1).2.tick_scale_max - (task_MyTask_Start cfg g1).2.tick_scaler)
      (task_MyTask_Start cfg g1).2 hs1 rfl hT1 (le_refl _)
  refine ⟨g1, _, g3, hinit, hrun, hs3, hthr3.trans hT1, ?_⟩
  have hm : (task_MyTask_Stop g3).2.pre_op_mode = task_mgr.op_mode := hmode3
  have hts : (task_MyTask_Stop g3).2.tick_scaler = 0 := hts3
  have hthr : (task_MyTask_Stop g3).2.tick_scale_max = g3.tick_scale_max := rfl
  rw [execute_eq_same_mode cfg task_mgr _ hm, hts, hthr]
  by_cases hpos : 0 < g3.tick_scale_max
  · rw [if_pos hpos]
    exact ⟨_, rfl, fun _ => rfl, fun hz => absurd hz (by omega)⟩
  · rw [if_neg hpos, stateMachine_init_row cfg task_mgr _ hq rfl,
      initialize_eq cfg task_mgr _ hq]
    exact ⟨_, rfl, fun h1 => absurd h1 (by omega), fun _ => rfl⟩

/-- Witness for C12 (amended): ten tasks in the queue give the threshold 299, so the call
after Stop only counts and the state is INITIALIZE. -/
theorem enable_disable_round_trip_witness :
    ∃ (g1 : Globals) (fuel : Nat) (g3 g5 : Globals),
      task_MyTask_Initialize cfgEx mgrEx (powerOn cfgEx ledEx) = some (1, g1) ∧
      executeToGate cfgEx mgrEx fuel (task_MyTask_Start cfgEx g1).2 = some g3 ∧
      g3.my_task.state = MYTASK_RUN ∧
      task_MyTask_Execute cfgEx mgrEx (task_MyTask_Stop g3).2 = some (1, g5) ∧
      g5.my_task.state = MYTASK_INITIALIZE := by
  obtain ⟨g1, fuel, g3, hinit, hrun, hs3, hthr, g5, hcall, hpos, -⟩ :=
    enable_disable_round_trip cfgEx mgrEx (powerOn cfgEx ledEx) (by decide)
  have hsel : selectedTicks cfgEx mgrEx = 2999 := by
    unfold selectedTicks
    rw [if_neg (by decide), cfgEx_DEFAULT_TICKS]
  have h299 : g3.tick_scale_max = 299 := by
    rw [hthr, hsel]
    rfl
  exact ⟨g1, fuel, g3, g5, hinit, hrun, hs3, hcall, hpos (by omega)⟩

/-! ### Toggles of a running task -/

theorem execute_run_counts (cfg : Config) (task_mgr : TASK_MGR_t) (g : Globals)
    (hs : g.my_task.state = MYTASK_RUN) (hm : g.pre_op_mode = task_mgr.op_mode)
    (hwf : g.tick_scale_max < 65536) (hlt : g.tick_scaler < g.tick_scale_max) :
    ∃ g' : Globals, task_MyTask_Execute cfg task_mgr g = some (1, g') ∧
      g'.led.latch = g.led.latch ∧ g'.my_task.state = MYTASK_RUN ∧
      g'.pre_op_mode = task_mgr.op_mode ∧ g'.tick_scale_max = g.tick_scale_max ∧
      g'.tick_scaler = g.tick_scaler + 1 := by
  rw [execute_eq_same_mode cfg task_mgr g hm, if_pos hlt]
  exact ⟨_, rfl, rfl, hs, hm, rfl, Nat.mod_eq_of_lt (by omega)⟩

theorem execute_run_toggles (cfg : Config) (task_mgr : TASK_MGR_t) (g : Globals)
    (hs : g.my_task.state = MYTASK_RUN) (hm : g.pre_op_mode = task_mgr.op_mode)
    (hge : ¬ g.tick_scaler < g.tick_scale_max) :
    ∃ g' : Globals, task_MyTask_Execute cfg task_mgr g = some (1, g') ∧
      g'.led.latch ≠ g.led.latch ∧ g'.my_task.state = MYTASK_RUN ∧
      g'.pre_op_mode = task_mgr.op_mode ∧ g'.tick_scale_max = g.tick_scale_max ∧
      g'.tick_scaler = 0 := by
  rw [execute_eq_same_mode cfg task_mgr g hm, if_neg hge,
    stateMachine_run cfg task_mgr { g with tick_scaler := 0 } hs]
  refine ⟨_, rfl, ?_, hs, hm, rfl, rfl⟩
  show (!g.led.latch) ≠ g.led.latch
  cases g.led.latch <;> decide

theorem countToggles_append (cfg : Config) (task_mgr : TASK_MGR_t) (a b : Nat) :
    ∀ (g g1 g2 : Globals) (k1 k2 : Nat),
      countToggles cfg task_mgr a g = some (k1, g1) →
      countToggles cfg task_mgr b g1 = some (k2, g2) →
      countToggles cfg task_mgr (a + b) g = some (k1 + k2, g2) := by
  induction a with
  | zero =>
    intro g g1 g2 k1 k2 h1 h2
    simp only [countToggles, Option.some.injEq, Prod.mk.injEq] at h1
    obtain ⟨hk, hg⟩ := h1
    subst hk
    subst hg
    simpa using h2
  | succ a ih =>
    intro g g1 g2 k1 k2 h1 h2
    rw [Nat.succ_add]
    unfold countToggles at h1 ⊢
    cases hex : task_MyTask_Execute cfg task_mgr g with
    | none =>
      rw [hex] at h1
      cases h1
    | some res =>
      obtain ⟨r, g'⟩ := res
      rw [hex] at h1
      simp only at h1 ⊢
      cases hrest : countToggles cfg task_mgr a g' with
      | none =>
        rw [hrest] at h1
        cases h1
      | some res' =>
        obtain ⟨k, g''⟩ := res'
        rw [hrest] at h1
        simp only [Option.some.injEq, Prod.mk.injEq] at h1
        obtain ⟨hk, hg⟩ := h1
        subst hg
        rw [ih g' g'' g2 k k2 hrest h2]
        simp only [Option.some.injEq, Prod.mk.injEq, and_true]
        omega

theorem countToggles_below_threshold (cfg : Config) (task_mgr : TASK_MGR_t) (n : Nat) :
    ∀ g : Globals, g.my_task.state = MYTASK_RUN → g.pre_op_mode = task_mgr.op_mode →
      g.tick_scale_max < 65536 → g.tick_scaler + n ≤ g.tick_scale_max →
      ∃ g' : Globals, countToggles cfg task_mgr n g = some (0, g') ∧
        g'.my_task.state = MYTASK_RUN ∧ g'.pre_op_mode = task_mgr.op_mode ∧
        g'.tick_scale_max = g.tick_scale_max ∧ g'.tick_scaler = g.tick_scaler + n := by
  induction n with
  | zero =>
    intro g hs hm _ _
    exact ⟨g, rfl, hs, hm, rfl, rfl⟩
  | succ n ih =>
    intro g hs hm hwf hle
    obtain ⟨g1, hcall, hlatch, hs1, hm1, hT1, hts1⟩ :=
      execute_run_counts cfg task_mgr g hs hm hwf (by omega)
    obtain ⟨g2, hrest, hs2, hm2, hT2, hts2⟩ :=
      ih g1 hs1 hm1 (by omega) (by omega)
    refine ⟨g2, ?_, hs2, hm2, hT2.trans hT1, by omega⟩
    unfold countToggles
    rw [hcall]
    simp only [hrest, hlatch, if_true]

theorem countToggles_pass_then_count (cfg : Config) (task_mgr : TASK_MGR_t) (g : Globals)
    (n : Nat) (hs : g.my_task.state = MYTASK_RUN) (hm : g.pre_op_mode = task_mgr.op_mode)
    (hwf : g.tick_scale_max < 65536) (hge : ¬ g.tick_scaler < g.tick_scale_max)
    (hn : n ≤ g.tick_scale_max) :
    ∃ g' : Globals, countToggles cfg task_mgr (n + 1) g = some (1, g') ∧
      g'.my_task.state = MYTASK_RUN ∧ g'.pre_op_mode = task_mgr.op_mode ∧
      g'.tick_scale_max = g.tick_scale_max ∧ g'.tick_scaler = n := by
  obtain ⟨g1, hcall, hlatch, hs1, hm1, hT1, hts1⟩ :=
    execute_run_toggles cfg task_mgr g hs hm hge
  obtain ⟨g2, hrest, hs2, hm2, hT2, hts2⟩ :=
    countToggles_below_threshold cfg task_mgr n g1 hs1 hm1 (by omega) (by omega)
  refine ⟨g2, ?_, hs2, hm2, hT2.trans hT1, by omega⟩
  unfold countToggles
  rw [hcall]
  simp only [hrest, hlatch, if_false]

/-- Counterexample for C13: a running task with threshold two and the counter at zero is
not toggled at all in two (`threshold`) consecutive calls of `task_MyTask_Execute`. -/
theorem no_toggle_in_threshold_calls :
    gRunSmall.my_task.state = MYTASK_RUN ∧ gRunSmall.pre_op_mode = mgrThousand.op_mode ∧
    gRunSmall.tick_scale_max = 2 ∧
    countToggles cfgEx mgrThousand gRunSmall.tick_scale_max gRunSmall
      = some (0, { gRunSmall with tick_scaler := 2 }) := by
  decide

/-- C13 (amended): with the operating mode settled (equal to the recorded one) and the task
in state RUN, the pin is toggled exactly once in every `threshold + 1` consecutive calls of
`task_MyTask_Execute`, where `threshold` is the cached `tick_scale_max` (a 16-bit value), and
the task is then again in RUN with the same mode and threshold. -/
theorem toggles_once_per_threshold_plus_one (cfg : Config) (task_mgr : TASK_MGR_t)
    (g : Globals) (hs : g.my_task.state = MYTASK_RUN)
    (hm : g.pre_op_mode = task_mgr.op_mode) (hwf : g.tick_scale_max < 65536) :
    ∃ g' : Globals, countToggles cfg task_mgr (g.tick_scale_max + 1) g = some (1, g') ∧
      g'.my_task.state = MYTASK_RUN ∧ g'.pre_op_mode = task_mgr.op_mode ∧
      g'.tick_scale_max = g.tick_scale_max := by
  by_cases hlt : g.tick_scaler < g.tick_scale_max
  · obtain ⟨g1, hfirst, hs1, hm1, hT1, hts1⟩ :=
      countToggles_below_threshold cfg task_mgr (g.tick_scale_max - g.tick_scaler) g hs hm
        hwf (by omega)
    obtain ⟨g2, hsecond, hs2, hm2, hT2, -⟩ :=
      countToggles_pass_then_count cfg task_mgr g1 g.tick_scaler hs1 hm1 (by omega)
        (by omega) (by omega)
    have hsum := countToggles_append cfg task_mgr _ _ g g1 g2 0 1 hfirst hsecond
    have hlen : g.tick_scale_max - g.tick_scaler + (g.tick_scaler + 1)
        = g.tick_scale_max + 1 := by omega
    rw [hlen] at hsum
    exact ⟨g2, hsum, hs2, hm2, hT2.trans hT1⟩
  · obtain ⟨g2, hcount, hs2, hm2, hT2, -⟩ :=
      countToggles_pass_then_count cfg task_mgr g g.tick_scale_max hs hm hwf hlt
        (le_refl _)
    exact ⟨g2, hcount, hs2, hm2, hT2⟩

/-- Witness for C13 (amended): with threshold two the pin is toggled once in three calls. -/
theorem toggles_once_per_threshold_plus_one_witness :
    ∃ g' : Globals, countToggles cfgEx mgrThousand 3 gRunSmall = some (1, g') ∧
      g'.my_task.state = MYTASK_RUN ∧ g'.pre_op_mode = mgrThousand.op_mode ∧
      g'.tick_scale_max = gRunSmall.tick_scale_max :=
  toggles_once_per_threshold_plus_one cfgEx mgrThousand gRunSmall rfl rfl (by decide)

/-! ### Start before Initialize -/

theorem execute_returns (cfg : Config) (task_mgr : TASK_MGR_t) (g : Globals)
    (hq : 0 < task_mgr.task_queue_ubound) :
    ∃ g' : Globals, task_MyTask_Execute cfg task_mgr g = some (1, g') := by
  rw [execute_eq cfg task_mgr g hq]
  split
  · exact ⟨_, rfl⟩
  · exact stateMachine_returns cfg task_mgr _ hq

theorem earlyStart_step (cfg : Config) (task_mgr : TASK_MGR_t) (g : Globals) (r : Nat)
    (g' : Globals) (hinv : EarlyStart g)
    (hcall : task_MyTask_Execute cfg task_mgr g = some (r, g')) : EarlyStart g' := by
  have hstep := execute_flagStep cfg task_mgr g r g' hcall
  unfold EarlyStart at hinv ⊢
  rcases hstep with ⟨hs, he, hr⟩ | ⟨-, hs, he, hr⟩ | ⟨hs, he, -⟩ | ⟨hf, -⟩
  · rw [hs, he, hr]
    exact hinv
  · exact Or.inr ⟨hs, hr, he⟩
  · rcases hinv with ⟨h0, -, -⟩ | ⟨-, -, h1⟩
    · rw [hs] at h0
      exact absurd h0 (by decide)
    · rw [he] at h1
      cases h1
  · rcases hinv with ⟨h0, -, -⟩ | ⟨h1, -, -⟩
    · exact absurd h0 hf.1
    · exact absurd h1 hf.2.1

theorem earlyStart_executeAll (cfg : Config) (mgrs : List TASK_MGR_t) :
    ∀ g g' : Globals, EarlyStart g → executeAll cfg mgrs g = some g' → EarlyStart g' := by
  induction mgrs with
  | nil =>
    intro g g' hinv hrun
    simp only [executeAll, Option.some.injEq] at hrun
    rw [← hrun]
    exact hinv
  | cons task_mgr rest ih =>
    intro g g' hinv hrun
    unfold executeAll at hrun
    cases hex : task_MyTask_Execute cfg task_mgr g with
    | none =>
      rw [hex] at hrun
      cases hrun
    | some res =>
      obtain ⟨r, g1⟩ := res
      rw [hex] at hrun
      exact ih g1 g' (earlyStart_step cfg task_mgr g r g1 hinv hex) hrun

theorem executeAll_returns (cfg : Config) (mgrs : List TASK_MGR_t) :
    ∀ g : Globals, (∀ m ∈ mgrs, 0 < m.task_queue_ubound) →
      ∃ g' : Globals, executeAll cfg mgrs g = some g' := by
  induction mgrs with
  | nil =>
    intro g _
    exact ⟨g, rfl⟩
  | cons task_mgr rest ih =>
    intro g hq
    obtain ⟨g1, hex⟩ :=
      execute_returns cfg task_mgr g (hq task_mgr (List.mem_cons_self _ _))
    obtain ⟨g', hrest⟩ := ih g1 (fun m hm => hq m (List.mem_cons_of_mem _ hm))
    refine ⟨g', ?_⟩
    unfold executeAll
    rw [hex]
    exact hrest

theorem earlyStart_after_start (cfg : Config) (led : DBGLED_t) :
    EarlyStart (task_MyTask_Start cfg (powerOn cfg led)).2 :=
  Or.inl ⟨rfl, rfl, rfl⟩

/-- C14: from power-on, after Start and any number of Execute calls (queue lengths at least
one) the calls all return, and `state` is INITIALIZE with `ready` false or IDLE with `ready`
true; a further Execute call made while `state` is INITIALIZE either does not pass the gate
and leaves `state == INITIALIZE`, or passes the gate, is the call of
`task_MyTask_Initialize` and ends with `state == IDLE` and `ready == true`; once that has
happened `state` stays IDLE. So `state` becomes IDLE only through the implicit Initialize,
and never RUN. -/
theorem start_before_initialize_ordering (cfg : Config) (led : DBGLED_t)
    (mgrs : List TASK_MGR_t) (hq : ∀ m ∈ mgrs, 0 < m.task_queue_ubound) :
    ∃ g : Globals, executeAll cfg mgrs (task_MyTask_Start cfg (powerOn cfg led)).2 = some g ∧
      ((g.my_task.state = MYTASK_INITIALIZE ∧ g.my_task.ready = false) ∨
        (g.my_task.state = MYTASK_IDLE ∧ g.my_task.ready = true)) ∧
      ∀ task_mgr : TASK_MGR_t, 0 < task_mgr.task_queue_ubound →
        ∃ g' : Globals, task_MyTask_Execute cfg task_mgr g = some (1, g') ∧
          (g.my_task.state = MYTASK_INITIALIZE →
            (¬ gatePasses cfg task_mgr g ∧ g'.my_task.state = MYTASK_INITIALIZE ∧
              g'.my_task.ready = false) ∨
            (gatePasses cfg task_mgr g ∧
              task_MyTask_Initialize cfg task_mgr (gated cfg task_mgr g) = some (1, g') ∧
              g'.my_task.state = MYTASK_IDLE ∧ g'.my_task.ready = true)) ∧
          (g.my_task.state = MYTASK_IDLE →
            g'.my_task.state = MYTASK_IDLE ∧ g'.my_task.ready = true) := by
  obtain ⟨g, hrun⟩ := executeAll_returns cfg mgrs (task_MyTask_Start cfg (powerOn cfg led)).2 hq
  have hinv := earlyStart_executeAll cfg mgrs _ g (earlyStart_after_start cfg led) hrun
  refine ⟨g, hrun, ?_, ?_⟩
  · rcases hinv with ⟨h0, hr, -⟩ | ⟨h1, hr, -⟩
    · exact Or.inl ⟨h0, hr⟩
    · exact Or.inr ⟨h1, hr⟩
  · intro task_mgr hq'
    obtain ⟨g', hcall⟩ := execute_returns cfg task_mgr g hq'
    have hinv' := earlyStart_step cfg task_mgr g 1 g' hinv hcall
    refine ⟨g', hcall, ?_, ?_⟩
    · intro h0
      have hr : g.my_task.ready = false := by
        rcases hinv with ⟨-, hr, -⟩ | ⟨h1, -, -⟩
        · exact hr
        · rw [h0] at h1
          exact absurd h1 (by decide)
      by_cases hgate : gatePasses cfg task_mgr g
      · refine Or.inr ⟨hgate, ?_⟩
        rw [execute_gate_pass cfg task_mgr g hq' hgate,
          stateMachine_init_row cfg task_mgr _ hq' ((gated_state cfg task_mgr g).trans h0)]
          at hcall
        have hflags := initialize_flags cfg task_mgr _ 1 g' hcall
        exact ⟨hcall, hflags.1, hflags.2.2⟩
      · refine Or.inl ⟨hgate, ?_⟩
        rw [execute_eq cfg task_mgr g hq', if_pos (not_not.mp hgate)] at hcall
        simp only [Option.some.injEq, Prod.mk.injEq, true_and] at hcall
        rw [← hcall]
        exact ⟨(gated_state cfg task_mgr g).trans h0, (gated_ready cfg task_mgr g).trans hr⟩
    · intro h1
      rcases hinv' with ⟨h0', -, he'⟩ | ⟨h1', hr', -⟩
      · have hstep := execute_flagStep cfg task_mgr g 1 g' hcall
        have hen : g.my_task.enable = false := by
          rcases hinv with ⟨h0, -, -⟩ | ⟨-, -, he⟩
          · rw [h1] at h0
            exact absurd h0 (by decide)
          · exact he
        rcases hstep with ⟨hs, -, -⟩ | ⟨hs0, -⟩ | ⟨-, he, -⟩ | ⟨hf, -⟩
        · rw [hs, h1] at h0'
          exact absurd h0' (by decide)
        · rw [h1] at hs0
          exact absurd hs0 (by decide)
        · rw [hen] at he
          cases he
        · exact absurd h1 hf.2.1
      · exact ⟨h1', hr'⟩

/-- Witness for C14: Start at power-on followed by two Execute calls with ten tasks in the
queue. -/
theorem start_before_initialize_ordering_witness :
    ∃ g : Globals,
      executeAll cfgEx [mgrEx, mgrEx] (task_MyTask_Start cfgEx (powerOn cfgEx ledEx)).2
        = some g ∧
      ((g.my_task.state = MYTASK_INITIALIZE ∧ g.my_task.ready = false) ∨
        (g.my_task.state = MYTASK_IDLE ∧ g.my_task.ready = true)) := by
  obtain ⟨g, hrun, hstate, -⟩ :=
    start_before_initialize_ordering cfgEx ledEx [mgrEx, mgrEx] (by decide)
  exact ⟨g, hrun, hstate⟩

/-- C19: from power-on, after one Start and any number of Execute calls with any scheduler
data and no further Start, `state` is never RUN: it is INITIALIZE, or it is IDLE with
`enable` cleared by the implicit Initialize; for queue lengths of at least one the calls all
return. -/
theorem early_start_is_lost (cfg : Config) (led : DBGLED_t) (mgrs : List TASK_MGR_t) :
    (∀ g : Globals,
      executeAll cfg mgrs (task_MyTask_Start cfg (powerOn cfg led)).2 = some g →
        g.my_task.state ≠ MYTASK_RUN ∧
        (g.my_task.state = MYTASK_INITIALIZE ∨
          (g.my_task.state = MYTASK_IDLE ∧ g.my_task.enable = false))) ∧
    ((∀ m ∈ mgrs, 0 < m.task_queue_ubound) →
      ∃ g : Globals,
        executeAll cfg mgrs (task_MyTask_Start cfg (powerOn cfg led)).2 = some g) := by
  refine ⟨?_, executeAll_returns cfg mgrs _⟩
  intro g hrun
  have hinv := earlyStart_executeAll cfg mgrs _ g (earlyStart_after_start cfg led) hrun
  rcases hinv with ⟨h0, -, -⟩ | ⟨h1, -, he⟩
  · refine ⟨?_, Or.inl h0⟩
    rw [h0]
    decide
  · refine ⟨?_, Or.inr ⟨h1, he⟩⟩
    rw [h1]
    decide

/-- Witness for C19: Start at power-on followed by two Execute calls with the long queue. -/
theorem early_start_is_lost_witness :
    ∃ g : Globals,
      executeAll cfgEx [mgrLong, mgrLong] (task_MyTask_Start cfgEx (powerOn cfgEx ledEx)).2
        = some g ∧ g.my_task.state ≠ MYTASK_RUN := by
  obtain ⟨g, hrun⟩ :=
    (early_start_is_lost cfgEx ledEx [mgrLong, mgrLong]).2 (by decide)
  exact ⟨g, hrun, ((early_start_is_lost cfgEx ledEx [mgrLong, mgrLong]).1 g hrun).1⟩

/-! ### Fields the state machine leaves alone -/

theorem initialize_keeps_counter_and_mode (cfg : Config) (task_mgr : TASK_MGR_t)
    (g : Globals) (r : Nat) (g' : Globals)
    (h : task_MyTask_Initialize cfg task_mgr g = some (r, g')) :
    g'.tick_scaler = g.tick_scaler ∧ g'.pre_op_mode = g.pre_op_mode := by
  rcases Nat.eq_zero_or_pos task_mgr.task_queue_ubound with hz | hq
  · simp [task_MyTask_Initialize, task_MyTask_UpdateTimebase, hz] at h
  · rw [initialize_eq cfg task_mgr g hq] at h
    cases h
    exact ⟨rfl, rfl⟩

theorem stateMachine_keeps_counter_and_mode (cfg : Config) (task_mgr : TASK_MGR_t)
    (g : Globals) (r : Nat) (g' : Globals)
    (h : stateMachine cfg task_mgr 1 g = some (r, g')) :
    g'.tick_scaler = g.tick_scaler ∧ g'.pre_op_mode = g.pre_op_mode := by
  by_cases h0 : g.my_task.state = MYTASK_INITIALIZE
  · rcases Nat.eq_zero_or_pos task_mgr.task_queue_ubound with hz | hq
    · rw [stateMachine_initialize_zero_queue cfg task_mgr 1 g h0 hz] at h
      cases h
    · rw [stateMachine_init_row cfg task_mgr g hq h0] at h
      exact initialize_keeps_counter_and_mode cfg task_mgr g r g' h
  · by_cases h1 : g.my_task.state = MYTASK_IDLE
    · rw [stateMachine_idle cfg task_mgr g h1] at h
      cases h
      exact ⟨rfl, rfl⟩
    · by_cases h2 : g.my_task.state = MYTASK_RUN
      · rw [stateMachine_run cfg task_mgr g h2] at h
        cases h
        exact ⟨rfl, rfl⟩
      · rw [stateMachine_fault cfg task_mgr g ⟨h0, h1, h2⟩] at h
        cases h
        exact ⟨rfl, rfl⟩

/-! ### Totality, gate step and mode check -/

/-- Counterexample for C15: with a queue length of zero `task_MyTask_UpdateTimebase` and
`task_MyTask_Initialize` divide by zero, and so does `task_MyTask_Execute` when the mode has
changed. -/
theorem zero_queue_divides_by_zero :
    task_MyTask_UpdateTimebase cfgEx mgrZero (powerOn cfgEx ledEx) = none ∧
    task_MyTask_Initialize cfgEx mgrZero (powerOn cfgEx ledEx) = none ∧
    task_MyTask_Execute cfgEx { op_mode := 3, task_queue_ubound := 0 } (powerOn cfgEx ledEx)
      = none := by
  refine ⟨?_, ?_, ?_⟩
  · simp [task_MyTask_UpdateTimebase, mgrZero]
  · simp [task_MyTask_Initialize, task_MyTask_UpdateTimebase, mgrZero]
  · exact execute_zero_queue_mode_change cfgEx _ _ (by decide) rfl

/-- C15 (amended): for every globals and operating mode, `task_MyTask_Start` and
`task_MyTask_Stop` return 1, and for every queue length of at least one each of
`task_MyTask_UpdateTimebase`, `task_MyTask_Initialize` and `task_MyTask_Execute` completes
(the division by the queue length is defined) and returns 1. -/
theorem operations_total_for_nonempty_queue (cfg : Config) (task_mgr : TASK_MGR_t)
    (g : Globals) :
    (task_MyTask_Start cfg g).1 = 1 ∧ (task_MyTask_Stop g).1 = 1 ∧
    (0 < task_mgr.task_queue_ubound →
      (∃ g' : Globals, task_MyTask_UpdateTimebase cfg task_mgr g = some (1, g')) ∧
      (∃ g' : Globals, task_MyTask_Initialize cfg task_mgr g = some (1, g')) ∧
      (∃ g' : Globals, task_MyTask_Execute cfg task_mgr g = some (1, g'))) :=
  ⟨rfl, rfl, fun hq => ⟨⟨_, updateTimebase_eq cfg task_mgr g hq⟩,
    ⟨_, initialize_eq cfg task_mgr g hq⟩, execute_returns cfg task_mgr g hq⟩⟩

/-- Witness for C15 (amended): the three dividing operations with ten tasks in the queue. -/
theorem operations_total_for_nonempty_queue_witness :
    (∃ g' : Globals, task_MyTask_UpdateTimebase cfgEx mgrEx gCorrupt = some (1, g')) ∧
    (∃ g' : Globals, task_MyTask_Initialize cfgEx mgrEx gCorrupt = some (1, g')) ∧
    (∃ g' : Globals, task_MyTask_Execute cfgEx mgrEx gCorrupt = some (1, g')) :=
  (operations_total_for_nonempty_queue cfgEx mgrEx gCorrupt).2.2 (by decide)

/-- C16: when the operating mode equals the recorded one and the gate counter is strictly
below the (16-bit) gate threshold, one call of `task_MyTask_Execute` returns 1, increments
the gate counter by exactly one and changes nothing else; when the counter is not below the
threshold (queue length at least one), the call is the state machine run on the globals with
the counter reset, and the counter is zero afterwards. -/
theorem execute_gate_step (cfg : Config) (task_mgr : TASK_MGR_t) (g : Globals)
    (hm : task_mgr.op_mode = g.pre_op_mode) (hwf : g.tick_scale_max < 65536) :
    (g.tick_scaler < g.tick_scale_max →
      task_MyTask_Execute cfg task_mgr g
        = some (1, { g with tick_scaler := g.tick_scaler + 1 })) ∧
    (¬ g.tick_scaler < g.tick_scale_max → 0 < task_mgr.task_queue_ubound →
      ∃ g' : Globals, task_MyTask_Execute cfg task_mgr g = some (1, g') ∧
        stateMachine cfg task_mgr 1 { g with tick_scaler := 0 } = some (1, g') ∧
        g'.tick_scaler = 0) := by
  rw [execute_eq_same_mode cfg task_mgr g hm.symm]
  refine ⟨?_, ?_⟩
  · intro hlt
    rw [if_pos hlt, Nat.mod_eq_of_lt (by omega)]
  · intro hge hq
    rw [if_neg hge]
    obtain ⟨g', hg'⟩ := stateMachine_returns cfg task_mgr { g with tick_scaler := 0 } hq
    refine ⟨g', hg', hg', ?_⟩
    exact (stateMachine_keeps_counter_and_mode cfg task_mgr _ 1 g' hg').1

/-- Witness for C16: the corrupted globals with counter 0 below threshold 299. -/
theorem execute_gate_step_witness :
    task_MyTask_Execute cfgEx mgrEx gCorrupt
      = some (1, { gCorrupt with tick_scaler := gCorrupt.tick_scaler + 1 }) :=
  (execute_gate_step cfgEx mgrEx gCorrupt rfl (by decide)).1 (by decide)

theorem selectedTicks_lt (cfg : Config) (task_mgr : TASK_MGR_t) :
    selectedTicks cfg task_mgr < 65536 := by
  unfold selectedTicks FAULT_TICKS DEFAULT_TICKS
  split <;> exact Nat.mod_lt _ (by decide)

theorem threshold_cast_id (cfg : Config) (task_mgr : TASK_MGR_t) :
    selectedTicks cfg task_mgr / task_mgr.task_queue_ubound % 65536
      = selectedTicks cfg task_mgr / task_mgr.task_queue_ubound :=
  Nat.mod_eq_of_lt (lt_of_le_of_lt (Nat.div_le_self _ _) (selectedTicks_lt cfg task_mgr))

/-- C17: for every globals and queue length of at least one, one call of
`task_MyTask_Execute` returns 1 and leaves the recorded mode equal to the current operating
mode. If the mode differed from the recorded one, the gate comparison of that same call is
made against the recomputed threshold (mode-selected ticks) / (queue length): below it the
call only counts, on the globals with the new interval, threshold and mode; otherwise the
state machine runs on them. If the mode did not differ, the gate comparison is made against
the stored threshold, whatever the queue length now is. -/
theorem execute_mode_check (cfg : Config) (task_mgr : TASK_MGR_t) (g : Globals)
    (hq : 0 < task_mgr.task_queue_ubound) :
    ∃ g' : Globals, task_MyTask_Execute cfg task_mgr g = some (1, g') ∧
      g'.pre_op_mode = task_mgr.op_mode ∧
      (g.pre_op_mode ≠ task_mgr.op_mode →
        (g.tick_scaler < selectedTicks cfg task_mgr / task_mgr.task_queue_ubound →
          g' = { g with
            my_task := { g.my_task with interval := selectedTicks cfg task_mgr }
            tick_scale_max := selectedTicks cfg task_mgr / task_mgr.task_queue_ubound
            pre_op_mode := task_mgr.op_mode
            tick_scaler := (g.tick_scaler + 1) % 65536 }) ∧
        (¬ g.tick_scaler < selectedTicks cfg task_mgr / task_mgr.task_queue_ubound →
          stateMachine cfg task_mgr 1 { g with
            my_task := { g.my_task with interval := selectedTicks cfg task_mgr }
            tick_scale_max := selectedTicks cfg task_mgr / task_mgr.task_queue_ubound
            pre_op_mode := task_mgr.op_mode
            tick_scaler := 0 } = some (1, g'))) ∧
      (g.pre_op_mode = task_mgr.op_mode →
        (g.tick_scaler < g.tick_scale_max →
          g' = { g with tick_scaler := (g.tick_scaler + 1) % 65536 }) ∧
        (¬ g.tick_scaler < g.tick_scale_max →
          stateMachine cfg task_mgr 1 { g with tick_scaler := 0 } = some (1, g'))) := by
  obtain ⟨g', hcall⟩ := execute_returns cfg task_mgr g hq
  refine ⟨g', hcall, ?_, ?_, ?_⟩
  · rw [execute_eq cfg task_mgr g hq] at hcall
    have hmode := afterModeCheck_pre_op_mode cfg task_mgr g
    split at hcall
    · cases hcall
      exact hmode
    · exact (stateMachine_keeps_counter_and_mode cfg task_mgr _ 1 g' hcall).2.trans hmode
  · intro hne
    have hamc : afterModeCheck cfg task_mgr g = { g with
        my_task := { g.my_task with interval := selectedTicks cfg task_mgr }
        tick_scale_max := selectedTicks cfg task_mgr / task_mgr.task_queue_ubound
        pre_op_mode := task_mgr.op_mode } := by
      unfold afterModeCheck
      rw [if_pos hne, threshold_cast_id]
    rw [execute_eq cfg task_mgr g hq] at hcall
    unfold gated at hcall
    rw [hamc] at hcall
    refine ⟨?_, ?_⟩
    · intro hlt
      rw [if_pos hlt] at hcall
      cases hcall
      rfl
    · intro hge
      rw [if_neg hge] at hcall
      exact hcall
  · intro heq
    rw [execute_eq_same_mode cfg task_mgr g heq] at hcall
    refine ⟨?_, ?_⟩
    · intro hlt
      rw [if_pos hlt] at hcall
      cases hcall
      rfl
    · intro hge
      rw [if_neg hge] at hcall
      exact hcall

/-- Witness for C17: a call in the fault mode on globals recorded in mode 0. -/
theorem execute_mode_check_witness :
    ∃ g' : Globals, task_MyTask_Execute cfgEx mgrFault gCorrupt = some (1, g') ∧
      g'.pre_op_mode = mgrFault.op_mode := by
  obtain ⟨g', hcall, hmode, -⟩ := execute_mode_check cfgEx mgrFault gCorrupt (by decide)
  exact ⟨g', hcall, hmode⟩

theorem pred_div_of_not_dvd (n Q : Nat) (hq : 0 < Q) (hd : ¬ Q ∣ n) :
    (n - 1) / Q = n / Q := by
  have hmod : 0 < n % Q := Nat.pos_of_ne_zero (fun h => hd (Nat.dvd_of_mod_eq_zero h))
  have hlt : n % Q < Q := Nat.mod_lt _ hq
  have hdecomp : n = Q * (n / Q) + n % Q := (Nat.div_add_mod n Q).symm
  have hsplit : n - 1 = (n % Q - 1) + Q * (n / Q) := by omega
  rw [hsplit, Nat.add_mul_div_left _ _ hq, Nat.div_eq_of_lt (by omega)]
  simp

/-- C20: let `N` be the period tick count of the operating mode, the 16-bit value of
`(uint16_t)(PERIOD/TASK_MGR_TIME_STEP)`. For `N >= 1` and every queue length `Q >= 1`,
`task_MyTask_UpdateTimebase` returns 1, sets `interval` to `N - 1` and the gate threshold to
`floor((N - 1)/Q)`, which is `floor(N/Q) - 1` when `Q` divides `N` and `floor(N/Q)` when it
does not. -/
theorem updateTimebase_threshold_by_divisibility (cfg : Config) (task_mgr : TASK_MGR_t)
    (g : Globals) (hq : 0 < task_mgr.task_queue_ubound)
    (hN : 1 ≤ selectedCount cfg task_mgr) (h16 : selectedCount cfg task_mgr < 65536) :
    ∃ g' : Globals, task_MyTask_UpdateTimebase cfg task_mgr g = some (1, g') ∧
      g'.my_task.interval = selectedCount cfg task_mgr - 1 ∧
      g'.tick_scale_max = (selectedCount cfg task_mgr - 1) / task_mgr.task_queue_ubound ∧
      (task_mgr.task_queue_ubound ∣ selectedCount cfg task_mgr →
        g'.tick_scale_max = selectedCount cfg task_mgr / task_mgr.task_queue_ubound - 1) ∧
      (¬ task_mgr.task_queue_ubound ∣ selectedCount cfg task_mgr →
        g'.tick_scale_max = selectedCount cfg task_mgr / task_mgr.task_queue_ubound) := by
  have hsel := selectedTicks_eq cfg task_mgr hN h16
  have hthr : selectedTicks cfg task_mgr / task_mgr.task_queue_ubound % 65536
      = (selectedCount cfg task_mgr - 1) / task_mgr.task_queue_ubound := by
    rw [threshold_cast_id, hsel]
  refine ⟨_, updateTimebase_eq cfg task_mgr g hq, hsel, hthr, ?_, ?_⟩
  · intro hd
    exact hthr.trans (pred_div_of_dvd _ _ hq hN hd)
  · intro hd
    exact hthr.trans (pred_div_of_not_dvd _ _ hq hd)

/-- Witness for C20: the binary64 configuration (2999 ticks in the normal period) and seven
tasks; seven does not divide 2999 and the threshold is `floor(2999/7)`. -/
theorem updateTimebase_threshold_by_divisibility_witness :
    ∃ g' : Globals,
      task_MyTask_UpdateTimebase cfgBinary64 mgrSeven (powerOn cfgBinary64 ledEx)
        = some (1, g') ∧
      g'.my_task.interval = 2998 ∧ g'.tick_scale_max = 2999 / 7 := by
  obtain ⟨g', hcall, hint, -, -, hnd⟩ :=
    updateTimebase_threshold_by_divisibility cfgBinary64 mgrSeven (powerOn cfgBinary64 ledEx)
      (by decide) (by decide) (by decide)
  exact ⟨g', hcall, hint, hnd (by decide)⟩

end MyTask
